import Mathlib

/-!
# pkg/whatsapp/whatsapp.go: session registry, identity resolution and send pipeline

A shallow embedding of `src/pkg/whatsapp/whatsapp.go`.

* Go strings are byte sequences (`GoString`); `len` is the byte length.
* A run-time fault of the Go code (index out of range) is an explicit
  result: `none` for the pure string functions, `Res.panic` for the
  stateful operations.
* The protocol engine (whatsmeow), the image libraries and the process
  environment are collaborators outside the package.  Every call to them
  is answered by a `World` and appended to the `trace` of the state, so
  that statements such as "Upload is never called" are statements about
  the trace.
-/

set_option autoImplicit false

/-! ## Go strings -/

/-- A Go `string`: an immutable sequence of bytes. -/
abbrev GoString := List UInt8

/-- The bytes (UTF-8) of a string literal of the source. -/
def str (s : String) : GoString := s.data.flatMap String.utf8EncodeChar

namespace strings

/-- Go `strings.ContainsRune(s, r)` for a rune below `utf8.RuneSelf`:
the library searches for the single byte `byte(r)`. -/
def ContainsRune (s : GoString) (r : UInt8) : Bool :=
  s.any (fun c => c == r)

/-- Go `strings.Split(s, sep)` for a one-byte separator: the
substrings between the occurrences of `sep` (always at least one). -/
def Split (s : GoString) (sep : UInt8) : List GoString :=
  match s with
  | [] => [[]]
  | c :: cs =>
    if c == sep then [] :: Split cs sep
    else
      match Split cs sep with
      | [] => [[c]]
      | b :: bs => (c :: b) :: bs

end strings

/-! ## whatsmeow `types.JID` -/

namespace types

/-- The fields of whatsmeow `types.JID` that `types.NewJID` sets; the
device and agent fields are zero for every identifier built here. -/
structure JID where
  User : GoString
  Server : GoString
deriving DecidableEq, Repr

/-- Constant `types.DefaultUserServer`. -/
def DefaultUserServer : GoString := str "s.whatsapp.net"

/-- Constant `types.GroupServer`. -/
def GroupServer : GoString := str "g.us"

/-- Constructor `types.NewJID(user, server)`. -/
def NewJID (user server : GoString) : JID := { User := user, Server := server }

/-- Value `types.EmptyJID`, the zero identifier. -/
def EmptyJID : JID := { User := [], Server := [] }

/-- Method `JID.IsEmpty`: the server part has length zero. -/
def JID.IsEmpty (jid : JID) : Bool := jid.Server.length == 0

end types

/-- Method `JID.String` for an identifier without device and agent:
`user@server`, or the server alone when the user part is empty. -/
def types.JID.String (jid : types.JID) : GoString :=
  if jid.User.length > 0 then jid.User ++ str "@" ++ jid.Server else jid.Server

/-! ## Identity normalisation (`WhatsAppDecomposeJID`, `WhatsAppComposeJID`) -/

/-- Function `WhatsAppDecomposeJID` (whatsapp.go 324-340).  `none` is the
index-out-of-range fault of `buffers[0]` or `id[0]`. -/
def WhatsAppDecomposeJID (id : GoString) : Option GoString :=
  let cut : Option GoString :=
    if strings.ContainsRune id 64 then
      match strings.Split id 64 with
      | [] => none
      | b :: _ => some b
    else some id
  match cut with
  | none => none
  | some [] => none
  | some (c :: rest) => if c == 43 then some rest else some (c :: rest)

/-- Function `WhatsAppComposeJID` (whatsapp.go 309-322). -/
def WhatsAppComposeJID (id : GoString) : Option types.JID :=
  match WhatsAppDecomposeJID id with
  | none => none
  | some id =>
    if strings.ContainsRune id 45 || id.length ≥ 18 then
      some (types.NewJID id types.GroupServer)
    else
      some (types.NewJID id types.DefaultUserServer)

/-! ## Values exchanged with the collaborators -/

/-- A Go `error` value, identified by its message. -/
structure GoError where
  msg : String
deriving DecidableEq, Repr

/-- Go `errors.New`. -/
def errors.New (msg : String) : GoError := { msg := msg }

namespace types

/-- Enumeration `types.Presence`. -/
inductive Presence where
  | PresenceAvailable
  | PresenceUnavailable
deriving DecidableEq, Repr

/-- Enumeration `types.ChatPresence`. -/
inductive ChatPresence where
  | ChatPresenceComposing
  | ChatPresencePaused
deriving DecidableEq, Repr

/-- Enumeration `types.ChatPresenceMedia`. -/
inductive ChatPresenceMedia where
  | ChatPresenceMediaText
  | ChatPresenceMediaAudio
deriving DecidableEq, Repr

/-- An entry of the answer of `Client.GetJoinedGroups`: the fields of
`types.GroupInfo` that identify the group. -/
structure GroupInfo where
  JID : JID
  Name : GoString
deriving DecidableEq, Repr

/-- One entry of the answer of `Client.IsOnWhatsApp`. -/
structure IsOnWhatsAppResponse where
  Query : GoString
  JID : JID
  IsIn : Bool
deriving DecidableEq, Repr

end types

namespace waproto

/-- Enumeration `waproto.DeviceProps_PlatformType`. -/
inductive DeviceProps_PlatformType where
  | DeviceProps_UNKNOWN
  | DeviceProps_CHROME
  | DeviceProps_FIREFOX
  | DeviceProps_IE
  | DeviceProps_OPERA
  | DeviceProps_SAFARI
  | DeviceProps_EDGE
  | DeviceProps_DESKTOP
  | DeviceProps_IPAD
  | DeviceProps_ANDROID_TABLET
  | DeviceProps_OHANA
  | DeviceProps_ALOHA
  | DeviceProps_CATALINA
  | DeviceProps_TCL_TV
  | DeviceProps_IOS_PHONE
  | DeviceProps_IOS_CATALYST
  | DeviceProps_ANDROID_PHONE
  | DeviceProps_ANDROID_AMBIGUOUS
  | DeviceProps_WEAR_OS
deriving DecidableEq, Repr

/-- Message `waproto.DeviceProps` with its `Version` triple flattened. -/
structure DeviceProps where
  Os : GoString
  PlatformType : DeviceProps_PlatformType
  RequireFullSync : Bool
  Primary : Nat
  Secondary : Nat
  Tertiary : Nat
deriving DecidableEq, Repr

/-- The media fields shared by the document, image, audio, video and
sticker messages: what `Upload` returned plus the declared MIME type. -/
structure MediaFields where
  Url : GoString
  DirectPath : GoString
  Mimetype : GoString
  FileLength : Nat
  FileSha256 : List UInt8
  FileEncSha256 : List UInt8
  MediaKey : List UInt8
deriving DecidableEq, Repr

/-- The thumbnail fields of `waproto.ImageMessage`. -/
structure ThumbnailFields where
  JpegThumbnail : List UInt8
  ThumbnailDirectPath : GoString
  ThumbnailSha256 : List UInt8
  ThumbnailEncSha256 : List UInt8
deriving DecidableEq, Repr

/-- Message `waproto.ActionLink`. -/
structure ActionLink where
  Url : GoString
  ButtonTitle : GoString
deriving DecidableEq, Repr

/-- Message `waproto.ExtendedTextMessage` as composed by the link send;
`ContextInfo` carries only the action link. -/
structure ExtendedTextMessage where
  Text : GoString
  MatchedText : GoString
  CanonicalUrl : GoString
  ContextInfo_ActionLink : ActionLink
deriving DecidableEq, Repr

/-- Message `waproto.Message`: one constructor per payload the package
composes.  Coordinates are carried as the bit patterns of the `float64`
arguments. -/
inductive Message where
  | Conversation (text : GoString)
  | LocationMessage (DegreesLatitude DegreesLongitude : Nat)
  | DocumentMessage (media : MediaFields) (Title FileName : GoString)
  | ImageMessage (media : MediaFields) (Caption : GoString)
      (thumb : ThumbnailFields) (ViewOnce : Bool)
  | AudioMessage (media : MediaFields)
  | VideoMessage (media : MediaFields) (Caption : GoString) (ViewOnce : Bool)
  | ContactMessage (DisplayName Vcard : GoString)
  | ExtendedTextMessage (m : ExtendedTextMessage)
  | StickerMessage (media : MediaFields)
deriving DecidableEq, Repr

end waproto

namespace whatsmeow

/-- Enumeration `whatsmeow.MediaType`, the upload categories. -/
inductive MediaType where
  | MediaImage
  | MediaVideo
  | MediaAudio
  | MediaDocument
  | MediaHistory
  | MediaAppState
  | MediaLinkThumbnail
deriving DecidableEq, Repr

/-- Structure `whatsmeow.UploadResponse`. -/
structure UploadResponse where
  URL : GoString
  DirectPath : GoString
  MediaKey : List UInt8
  FileEncSHA256 : List UInt8
  FileSHA256 : List UInt8
  FileLength : Nat
deriving DecidableEq, Repr

end whatsmeow

namespace whatsmeow

/-- Structure `whatsmeow.QRChannelItem`: the event name, the code of a
"code" event and its time to live in whole seconds
(`int(evt.Timeout.Seconds())`). -/
structure QRChannelItem where
  Event : GoString
  Code : GoString
  TimeoutSeconds : Int
deriving DecidableEq, Repr

end whatsmeow

namespace store

/-- Structure `store.Device`: the durable device identity `ID` is absent
until pairing has completed. -/
structure Device where
  ID : Option types.JID
deriving DecidableEq, Repr

end store

namespace whatsmeow

/-- The fields of `whatsmeow.Client` that the package reads or writes. -/
structure Client where
  Store : store.Device
  proxyAddress : Option GoString
  EnableAutoReconnect : Bool
  AutoTrustIdentity : Bool
deriving DecidableEq, Repr

end whatsmeow

namespace image

/-- A decoded Go `image.Image`: its bounds and its pixel data. -/
structure Image where
  Dx : Nat
  Dy : Nat
  Pix : List UInt8
deriving DecidableEq, Repr

end image

namespace imgconv

/-- Enumeration `imgconv.Format` (the formats the package names). -/
inductive Format where
  | JPEG
  | PNG
deriving DecidableEq, Repr

/-- Structure `imgconv.FormatOption`.  The literal
`imgconv.FormatOption{}` is the zero value, whose `Format` is `JPEG`, the
first constant of the enumeration. -/
structure FormatOption where
  Format : Format
deriving DecidableEq, Repr

/-- Structure `imgconv.ResizeOption`; an unset field is zero. -/
structure ResizeOption where
  Width : Nat
  Height : Nat
deriving DecidableEq, Repr

end imgconv

/-! ## Calls to the collaborators -/

/-- One call made to a collaborator, with the arguments passed and the
error it returned (for the two status queries: the answer). -/
inductive Call where
  | NewDevice
  | Disconnect (jid : GoString)
  | Connect (jid : GoString) (err : Option GoError)
  | SendPresence (jid : GoString) (state : types.Presence) (err : Option GoError)
  | Logout (jid : GoString) (err : Option GoError)
  | StoreDelete (jid : GoString) (err : Option GoError)
  | IsConnected (jid : GoString) (res : Bool)
  | IsLoggedIn (jid : GoString) (res : Bool)
  | IsOnWhatsApp (jid : GoString) (phones : List GoString) (err : Option GoError)
  | SendChatPresence (jid : GoString) (chat : types.JID) (state : types.ChatPresence)
      (media : types.ChatPresenceMedia) (err : Option GoError)
  | Upload (jid : GoString) (plaintext : List UInt8) (appInfo : whatsmeow.MediaType)
      (err : Option GoError)
  | GenerateMessageID (id : GoString)
  | SendMessage (jid : GoString) (chat : types.JID) (message : waproto.Message)
      (id : GoString) (err : Option GoError)
  | Decode (data : List UInt8) (err : Option GoError)
  | Write (img : image.Image) (option : imgconv.FormatOption) (err : Option GoError)
  | WebpEncode (img : image.Image) (err : Option GoError)
  | GetJoinedGroups (jid : GoString) (err : Option GoError)
  | GetQRChannel (jid : GoString) (err : Option GoError)
deriving DecidableEq, Repr

/-- The error component of a Go `(value, error)` result. -/
def errOf {α : Type} (r : Except GoError α) : Option GoError :=
  match r with
  | .ok _ => none
  | .error e => some e

/-- The collaborators.  Every answer of the engine, the datastore and the
image libraries may depend on the calls made so far. -/
structure World where
  /-- Package variable set by `init` and never written afterwards. -/
  WhatsAppClientProxyURL : GoString
  /-- Package variable set by `init` and never written afterwards. -/
  WhatsAppUserAgentName : GoString
  /-- Package variable set by `init` and never written afterwards. -/
  WhatsAppUserAgentType : GoString
  /-- Function `env.GetEnvInt`: the value returned and the error. -/
  GetEnvInt : String → Int × Option GoError
  /-- Function `env.GetEnvBool`: the value returned and the error. -/
  GetEnvBool : String → Bool × Option GoError
  /-- Go `strings.Map(unicode.ToLower, s)`, the path `strings.ToLower`
  takes for a string that has a non-ASCII byte. -/
  MapToLower : GoString → GoString
  /-- Go `strings.TrimFunc(s, unicode.IsSpace)`, the continuation of
  `strings.TrimSpace` at a non-ASCII byte met from the left. -/
  TrimFuncIsSpace : GoString → GoString
  /-- Go `strings.TrimRightFunc(s, unicode.IsSpace)`, the continuation of
  `strings.TrimSpace` at a non-ASCII byte met from the right. -/
  TrimRightFuncIsSpace : GoString → GoString
  NewDevice : List Call → store.Device
  Connect : List Call → GoString → Option GoError
  SendPresence : List Call → GoString → types.Presence → Option GoError
  Logout : List Call → GoString → Option GoError
  StoreDelete : List Call → GoString → Option GoError
  IsConnected : List Call → GoString → Bool
  IsLoggedIn : List Call → GoString → Bool
  IsOnWhatsApp : List Call → GoString → List GoString →
    Except GoError (List types.IsOnWhatsAppResponse)
  SendChatPresence : List Call → GoString → types.JID → types.ChatPresence →
    types.ChatPresenceMedia → Option GoError
  Upload : List Call → GoString → List UInt8 → whatsmeow.MediaType →
    Except GoError whatsmeow.UploadResponse
  GenerateMessageID : List Call → GoString
  SendMessage : List Call → GoString → types.JID → waproto.Message → GoString →
    Option GoError
  Decode : List Call → List UInt8 → Except GoError image.Image
  /-- The pixel data the resampling of `imgconv.Resize` produces for a
  source image and a target width and height. -/
  Resample : image.Image → Nat → Nat → List UInt8
  Write : List Call → image.Image → imgconv.FormatOption → Except GoError (List UInt8)
  WebpEncode : List Call → image.Image → Except GoError (List UInt8)
  GetJoinedGroups : List Call → GoString → Except GoError (List types.GroupInfo)
  /-- Method `Client.GetQRChannel`: the events the returned channel will
  deliver, in order. -/
  GetQRChannel : List Call → GoString → Except GoError (List whatsmeow.QRChannelItem)
  /-- Function `qrCode.Encode(content, qrCode.Medium, 256)`: the PNG bytes
  (its error is discarded by the caller). -/
  QREncode : GoString → List UInt8
  /-- Method `base64.StdEncoding.EncodeToString`. -/
  EncodeToString : List UInt8 → GoString

/-! ## Package state and the execution monad -/

/-- The package variable `version` (declared in another file of the
package): three Go `int`s. -/
structure VersionVars where
  Major : Int
  Minor : Int
  Patch : Int
deriving DecidableEq, Repr

/-- The mutable state: the registry `WhatsAppClient`, the library
variable `store.DeviceProps`, the package variable `version`, and the
calls made so far.  Indexing the registry yields `nil` for an absent key;
the package never leaves a key bound to `nil` (`WhatsAppLogout` assigns
`nil` and deletes the key in the same step), so the registry is a partial
map. -/
structure State where
  WhatsAppClient : GoString → Option whatsmeow.Client
  DeviceProps : waproto.DeviceProps
  version : VersionVars
  trace : List Call

/-- Result of running an operation: it returned, or it stopped with a
run-time fault. -/
inductive Res (α : Type) where
  | ok (val : α) (st : State)
  | panic (st : State)

/-- An operation of the package: a state transformer that may fault. -/
def M (α : Type) : Type := State → Res α

namespace M

/-- Return without touching the state. -/
def ret {α : Type} (a : α) : M α := fun s => Res.ok a s

/-- Sequencing; a fault stops the run. -/
def andThen {α β : Type} (x : M α) (f : α → M β) : M β := fun s =>
  match x s with
  | Res.ok a s1 => f a s1
  | Res.panic s1 => Res.panic s1

instance : Monad M where
  pure := ret
  bind := andThen

/-- A run-time fault. -/
def fault {α : Type} : M α := fun s => Res.panic s

/-- Go `defer`: `deferred` runs when `body` is left, also when it is left
by a fault. -/
def defer {α : Type} (deferred : M Unit) (body : M α) : M α := fun s =>
  match body s with
  | Res.ok a s1 =>
    match deferred s1 with
    | Res.ok _ s2 => Res.ok a s2
    | Res.panic s2 => Res.panic s2
  | Res.panic s1 =>
    match deferred s1 with
    | Res.ok _ s2 => Res.panic s2
    | Res.panic s2 => Res.panic s2

/-- Read the registry entry of a key (`WhatsAppClient[jid]`). -/
def client (jid : GoString) : M (Option whatsmeow.Client) := fun s =>
  Res.ok (s.WhatsAppClient jid) s

/-- Perform a collaborator call: compute the answer from the calls made
so far and append the call to the trace. -/
def perform {α : Type} (answer : List Call → α) (record : α → Call) : M α := fun s =>
  let a := answer s.trace
  Res.ok a { s with trace := s.trace ++ [record a] }

/-- A value that may be a fault (`none`). -/
def ofOption {α : Type} (o : Option α) : M α :=
  match o with
  | some a => ret a
  | none => fault

end M

namespace M

/-- Replace the state by a function of it (an assignment to a package
variable). -/
def modify (f : State → State) : M Unit := fun s => Res.ok () (f s)

/-- Assignment `WhatsAppClient[jid] = c`. -/
def assign (jid : GoString) (c : Option whatsmeow.Client) : M Unit :=
  modify fun s => { s with WhatsAppClient := Function.update s.WhatsAppClient jid c }

/-- A write through the pointer `WhatsAppClient[jid]`; through `nil` it
is a fault. -/
def update (jid : GoString) (f : whatsmeow.Client → whatsmeow.Client) : M Unit := fun s =>
  match s.WhatsAppClient jid with
  | some c => Res.ok () { s with WhatsAppClient := Function.update s.WhatsAppClient jid (some (f c)) }
  | none => Res.panic s

end M

/-! ## The collaborator calls, as operations -/

namespace whatsmeow

/-- Method `Client.Disconnect` of the client registered under `jid`. -/
def Client.Disconnect (jid : GoString) : M Unit :=
  M.perform (fun _ => ()) (fun _ => Call.Disconnect jid)

/-- Method `Client.Connect`. -/
def Client.Connect (w : World) (jid : GoString) : M (Option GoError) :=
  M.perform (fun h => w.Connect h jid) (fun e => Call.Connect jid e)

/-- Method `Client.SendPresence`. -/
def Client.SendPresence (w : World) (jid : GoString) (state : types.Presence) :
    M (Option GoError) :=
  M.perform (fun h => w.SendPresence h jid state) (fun e => Call.SendPresence jid state e)

/-- Method `Client.Logout`. -/
def Client.Logout (w : World) (jid : GoString) : M (Option GoError) :=
  M.perform (fun h => w.Logout h jid) (fun e => Call.Logout jid e)

/-- Method `Client.Store.Delete`. -/
def Client.StoreDelete (w : World) (jid : GoString) : M (Option GoError) :=
  M.perform (fun h => w.StoreDelete h jid) (fun e => Call.StoreDelete jid e)

/-- Method `Client.IsConnected`. -/
def Client.IsConnected (w : World) (jid : GoString) : M Bool :=
  M.perform (fun h => w.IsConnected h jid) (fun b => Call.IsConnected jid b)

/-- Method `Client.IsLoggedIn`. -/
def Client.IsLoggedIn (w : World) (jid : GoString) : M Bool :=
  M.perform (fun h => w.IsLoggedIn h jid) (fun b => Call.IsLoggedIn jid b)

/-- Method `Client.IsOnWhatsApp`. -/
def Client.IsOnWhatsApp (w : World) (jid : GoString) (phones : List GoString) :
    M (Except GoError (List types.IsOnWhatsAppResponse)) :=
  M.perform (fun h => w.IsOnWhatsApp h jid phones)
    (fun r => Call.IsOnWhatsApp jid phones (errOf r))

/-- Method `Client.SendChatPresence`. -/
def Client.SendChatPresence (w : World) (jid : GoString) (chat : types.JID)
    (state : types.ChatPresence) (media : types.ChatPresenceMedia) : M (Option GoError) :=
  M.perform (fun h => w.SendChatPresence h jid chat state media)
    (fun e => Call.SendChatPresence jid chat state media e)

/-- Method `Client.Upload`. -/
def Client.Upload (w : World) (jid : GoString) (plaintext : List UInt8)
    (appInfo : MediaType) : M (Except GoError UploadResponse) :=
  M.perform (fun h => w.Upload h jid plaintext appInfo)
    (fun r => Call.Upload jid plaintext appInfo (errOf r))

/-- Function `whatsmeow.GenerateMessageID`. -/
def GenerateMessageID (w : World) : M GoString :=
  M.perform (fun h => w.GenerateMessageID h) (fun id => Call.GenerateMessageID id)

/-- Method `Client.SendMessage` with the message id of the request
extra; the send response is discarded by every caller. -/
def Client.SendMessage (w : World) (jid : GoString) (chat : types.JID)
    (message : waproto.Message) (id : GoString) : M (Option GoError) :=
  M.perform (fun h => w.SendMessage h jid chat message id)
    (fun e => Call.SendMessage jid chat message id e)

/-- Method `sqlstore.Container.NewDevice` of `WhatsAppDatastore`. -/
def NewDevice (w : World) : M store.Device :=
  M.perform (fun h => w.NewDevice h) (fun _ => Call.NewDevice)

/-- Constructor `whatsmeow.NewClient(device, nil)`. -/
def NewClient (device : store.Device) : Client :=
  { Store := device, proxyAddress := none, EnableAutoReconnect := true,
    AutoTrustIdentity := true }

end whatsmeow

namespace imgconv

/-- Function `imgconv.Decode`. -/
def Decode (w : World) (data : List UInt8) : M (Except GoError image.Image) :=
  M.perform (fun h => w.Decode h data) (fun r => Call.Decode data (errOf r))

/-- Function `imgconv.Write` into a fresh buffer: the bytes written. -/
def Write (w : World) (img : image.Image) (option : FormatOption) :
    M (Except GoError (List UInt8)) :=
  M.perform (fun h => w.Write h img option) (fun r => Call.Write img option (errOf r))

end imgconv

/-- Function `webp.Encode` into a fresh buffer: the bytes written. -/
def webp.Encode (w : World) (img : image.Image) : M (Except GoError (List UInt8)) :=
  M.perform (fun h => w.WebpEncode h img) (fun r => Call.WebpEncode img (errOf r))

namespace strings

/-- Go `strings.ToLower`: a string of ASCII bytes only has each of its
bytes `A`..`Z` moved to `a`..`z` (and is returned as it is when it has
none); a string with a non-ASCII byte goes through
`strings.Map(unicode.ToLower, s)`. -/
def ToLower (w : World) (s : GoString) : GoString :=
  if s.all (fun c => c < 128) then
    s.map (fun c => if 65 ≤ c && c ≤ 90 then c + 32 else c)
  else w.MapToLower s

/-- Table `asciiSpace` of the Go library. -/
def asciiSpace (c : UInt8) : Bool :=
  c == 9 || c == 10 || c == 11 || c == 12 || c == 13 || c == 32

/-- Second loop of `strings.TrimSpace`, on the reversed remainder: drop
ASCII space from the end; at a non-ASCII byte continue with
`TrimRightFunc(…, unicode.IsSpace)`. -/
def trimSpaceRight (w : World) (rev : GoString) : GoString :=
  match rev with
  | [] => []
  | c :: cs =>
    if c ≥ 128 then w.TrimRightFuncIsSpace (c :: cs).reverse
    else if asciiSpace c then trimSpaceRight w cs
    else (c :: cs).reverse

/-- Go `strings.TrimSpace`: drop ASCII space from the start; at a
non-ASCII byte continue with `TrimFunc(…, unicode.IsSpace)`; then trim
the end. -/
def TrimSpace (w : World) (s : GoString) : GoString :=
  match s with
  | [] => []
  | c :: cs =>
    if c ≥ 128 then w.TrimFuncIsSpace (c :: cs)
    else if asciiSpace c then TrimSpace w cs
    else trimSpaceRight w (c :: cs).reverse

end strings

/-! ## Session registry (`WhatsAppInitClient`, `WhatsAppGetUserAgent`) -/

/-- Function `WhatsAppGetUserAgent` (whatsapp.go 114-151). -/
def WhatsAppGetUserAgent (w : World) (agentType : GoString) :
    waproto.DeviceProps_PlatformType :=
  let tag := strings.ToLower w agentType
  if tag = str "desktop" then .DeviceProps_DESKTOP
  else if tag = str "mac" then .DeviceProps_CATALINA
  else if tag = str "android" then .DeviceProps_ANDROID_AMBIGUOUS
  else if tag = str "android-phone" then .DeviceProps_ANDROID_PHONE
  else if tag = str "andorid-tablet" then .DeviceProps_ANDROID_TABLET
  else if tag = str "ios-phone" then .DeviceProps_IOS_PHONE
  else if tag = str "ios-catalyst" then .DeviceProps_IOS_CATALYST
  else if tag = str "ipad" then .DeviceProps_IPAD
  else if tag = str "wearos" then .DeviceProps_WEAR_OS
  else if tag = str "ie" then .DeviceProps_IE
  else if tag = str "edge" then .DeviceProps_EDGE
  else if tag = str "chrome" then .DeviceProps_CHROME
  else if tag = str "firefox" then .DeviceProps_FIREFOX
  else if tag = str "opera" then .DeviceProps_OPERA
  else if tag = str "aloha" then .DeviceProps_ALOHA
  else if tag = str "tv-tcl" then .DeviceProps_TCL_TV
  else .DeviceProps_UNKNOWN

/-- Go conversion `uint32(x)` of an `int`. -/
def uint32 (x : Int) : Nat := (x % 4294967296).toNat

/-- Function `WhatsAppInitClient` (whatsapp.go 69-112).  `device = none`
is the `nil` device. -/
def WhatsAppInitClient (w : World) (device : Option store.Device) (jid : GoString) :
    M Unit := do
  if (← M.client jid).isNone then
    let mut dev : store.Device := { ID := none }
    match device with
    | none => dev ← whatsmeow.NewDevice w
    | some d => dev := d
    M.modify fun s => { s with DeviceProps := { s.DeviceProps with
      Os := w.WhatsAppUserAgentName
      PlatformType := WhatsAppGetUserAgent w w.WhatsAppUserAgentType
      RequireFullSync := false } }
    let major := w.GetEnvInt "WHATSAPP_VERSION_MAJOR"
    M.modify fun s => { s with version := { s.version with Major := major.1 } }
    if major.2.isNone then
      M.modify fun s => { s with DeviceProps := { s.DeviceProps with
        Primary := uint32 s.version.Major } }
    let minor := w.GetEnvInt "WHATSAPP_VERSION_MINOR"
    M.modify fun s => { s with version := { s.version with Minor := minor.1 } }
    if minor.2.isNone then
      M.modify fun s => { s with DeviceProps := { s.DeviceProps with
        Secondary := uint32 s.version.Minor } }
    let patch := w.GetEnvInt "WHATSAPP_VERSION_PATCH"
    M.modify fun s => { s with version := { s.version with Patch := patch.1 } }
    if patch.2.isNone then
      M.modify fun s => { s with DeviceProps := { s.DeviceProps with
        Tertiary := uint32 s.version.Patch } }
    M.assign jid (some (whatsmeow.NewClient dev))
    if w.WhatsAppClientProxyURL.length > 0 then
      M.update jid fun c => { c with proxyAddress := some w.WhatsAppClientProxyURL }
    M.update jid fun c => { c with EnableAutoReconnect := true }
    M.update jid fun c => { c with AutoTrustIdentity := true }

/-! ## Connection lifecycle (`WhatsAppReconnect`, `WhatsAppLogout`) -/

/-- Function `WhatsAppReconnect` (whatsapp.go 215-238).  The inner test
is the one the source makes: the registry entry again, not `Store.ID`. -/
def WhatsAppReconnect (w : World) (jid : GoString) : M (Option GoError) := do
  if (← M.client jid).isSome then
    whatsmeow.Client.Disconnect jid
    if (← M.client jid).isSome then
      let err ← whatsmeow.Client.Connect w jid
      if err.isSome then
        return err
      let _ ← whatsmeow.Client.SendPresence w jid .PresenceAvailable
      return none
    return some (errors.New
      "WhatsApp Client Store ID is Empty, Please Re-Login and Scan QR Code Again")
  return some (errors.New "WhatsApp Client is not Valid")

/-- Function `WhatsAppIsClientOK` (whatsapp.go 276-288).  Called through a
`nil` registry entry the method call faults. -/
def WhatsAppIsClientOK (w : World) (jid : GoString) : M (Option GoError) := do
  if (← M.client jid).isNone then
    M.fault
  else
    if !(← whatsmeow.Client.IsConnected w jid) then
      return some (errors.New "WhatsApp Client is not Connected")
    if !(← whatsmeow.Client.IsLoggedIn w jid) then
      return some (errors.New "WhatsApp Client is not Logged In")
    return none

/-- Function `WhatsAppGetJID` (whatsapp.go 290-307).  `infos[0]` on an
empty answer is an index-out-of-range fault. -/
def WhatsAppGetJID (w : World) (jid : GoString) (id : GoString) : M types.JID := do
  if (← M.client jid).isSome then
    let ids : List GoString := [str "+" ++ id]
    match ← whatsmeow.Client.IsOnWhatsApp w jid ids with
    | .ok infos =>
      match infos with
      | [] => M.fault
      | info :: _ =>
        if info.IsIn then
          return info.JID
    | .error _ => pure ()
  return types.EmptyJID

/-- Function `WhatsAppComposeStatus` (whatsapp.go 342-361).  Called
through a `nil` registry entry the method call faults. -/
def WhatsAppComposeStatus (w : World) (jid : GoString) (rjid : types.JID)
    (isComposing : Bool) (isAudio : Bool) : M Unit := do
  let typeCompose : types.ChatPresence :=
    if isComposing then .ChatPresenceComposing else .ChatPresencePaused
  let typeComposeMedia : types.ChatPresenceMedia :=
    if isAudio then .ChatPresenceMediaAudio else .ChatPresenceMediaText
  if (← M.client jid).isNone then
    M.fault
  else
    let _ ← whatsmeow.Client.SendChatPresence w jid rjid typeCompose typeComposeMedia
    return ()

/-! ## The resize of the image library -/

/-- Modelled from the spec: `imgconv.Resize` belongs to the imgconv
library, which is not among the sources; this is the size of the image it
returns for a source of `srcW` by `srcH` pixels.  With only `Width` set
the width is the one asked for and the height is scaled in the same
proportion ("width set to 1024, height scaled proportionally"; in the
source: "Resize The Image to Width 1024px and Preserve Aspect Ratio"),
rounded to the nearest pixel and at least one pixel; with `Width` and
`Height` both set the size is exactly the one asked for ("resize to
exactly 512×512").  Every call in the sources sets `Width`. -/
def imgconv.resizedSize (srcW srcH : Nat) (option : imgconv.ResizeOption) : Nat × Nat :=
  if option.Height = 0 then
    (option.Width, max 1 ((2 * option.Width * srcH + srcW) / (2 * srcW)))
  else (option.Width, option.Height)

/-- Modelled from the spec: function `imgconv.Resize`, absent from the
sources.  The image returned has the size `imgconv.resizedSize` gives and
the pixel data the resampling of the library produces. -/
def imgconv.Resize (w : World) (base : image.Image) (option : imgconv.ResizeOption) :
    image.Image :=
  { Dx := (imgconv.resizedSize base.Dx base.Dy option).1
    Dy := (imgconv.resizedSize base.Dx base.Dy option).2
    Pix := w.Resample base (imgconv.resizedSize base.Dx base.Dy option).1
      (imgconv.resizedSize base.Dx base.Dy option).2 }

/-! ## Send operations -/

/-- The handle fields of an upload, with the declared MIME type. -/
def mediaFields (u : whatsmeow.UploadResponse) (mimetype : GoString) : waproto.MediaFields :=
  { Url := u.URL, DirectPath := u.DirectPath, Mimetype := mimetype,
    FileLength := u.FileLength, FileSha256 := u.FileSHA256,
    FileEncSha256 := u.FileEncSHA256, MediaKey := u.MediaKey }

/-- The result `("", errors.New(msg))` of a send operation. -/
def failWith (msg : String) : GoString × Option GoError := ([], some (errors.New msg))

/-- Function `WhatsAppSendText` (whatsapp.go 363-402). -/
def WhatsAppSendText (w : World) (jid rjid message : GoString) :
    M (GoString × Option GoError) := do
  if (← M.client jid).isSome then
    let err ← WhatsAppIsClientOK w jid
    if err.isSome then
      return ([], err)
    let remoteJID ← M.ofOption (WhatsAppComposeJID rjid)
    if (← WhatsAppGetJID w jid remoteJID.String).IsEmpty then
      return failWith "WhatsApp Personal ID is Not Registered"
    WhatsAppComposeStatus w jid remoteJID true false
    M.defer (WhatsAppComposeStatus w jid remoteJID false false) do
      let msgID ← whatsmeow.GenerateMessageID w
      let msgContent := waproto.Message.Conversation message
      let err ← whatsmeow.Client.SendMessage w jid remoteJID msgContent msgID
      if err.isSome then
        return ([], err)
      return (msgID, none)
  else
    return failWith "WhatsApp Client is not Valid"

/-- Function `WhatsAppSendLocation` (whatsapp.go 404-446). -/
def WhatsAppSendLocation (w : World) (jid rjid : GoString) (latitude longitude : Nat) :
    M (GoString × Option GoError) := do
  if (← M.client jid).isSome then
    let err ← WhatsAppIsClientOK w jid
    if err.isSome then
      return ([], err)
    let remoteJID ← M.ofOption (WhatsAppComposeJID rjid)
    if (← WhatsAppGetJID w jid remoteJID.String).IsEmpty then
      return failWith "WhatsApp Personal ID is Not Registered"
    WhatsAppComposeStatus w jid remoteJID true false
    M.defer (WhatsAppComposeStatus w jid remoteJID false false) do
      let msgID ← whatsmeow.GenerateMessageID w
      let msgContent := waproto.Message.LocationMessage latitude longitude
      let err ← whatsmeow.Client.SendMessage w jid remoteJID msgContent msgID
      if err.isSome then
        return ([], err)
      return (msgID, none)
  else
    return failWith "WhatsApp Client is not Valid"

/-- Function `WhatsAppSendDocument` (whatsapp.go 448-503). -/
def WhatsAppSendDocument (w : World) (jid rjid : GoString) (fileBytes : List UInt8)
    (fileType fileName : GoString) : M (GoString × Option GoError) := do
  if (← M.client jid).isSome then
    let err ← WhatsAppIsClientOK w jid
    if err.isSome then
      return ([], err)
    let remoteJID ← M.ofOption (WhatsAppComposeJID rjid)
    if (← WhatsAppGetJID w jid remoteJID.String).IsEmpty then
      return failWith "WhatsApp Personal ID is Not Registered"
    WhatsAppComposeStatus w jid remoteJID true false
    M.defer (WhatsAppComposeStatus w jid remoteJID false false) do
      match ← whatsmeow.Client.Upload w jid fileBytes .MediaDocument with
      | .error _ => return failWith "Error While Uploading Media to WhatsApp Server"
      | .ok fileUploaded =>
        let msgID ← whatsmeow.GenerateMessageID w
        let msgContent := waproto.Message.DocumentMessage
          (mediaFields fileUploaded fileType) fileName fileName
        let err ← whatsmeow.Client.SendMessage w jid remoteJID msgContent msgID
        if err.isSome then
          return ([], err)
        return (msgID, none)
  else
    return failWith "WhatsApp Client is not Valid"

/-- Function `WhatsAppSendImage` (whatsapp.go 505-637). -/
def WhatsAppSendImage (w : World) (jid rjid : GoString) (imageBytes : List UInt8)
    (imageType imageCaption : GoString) (isViewOnce : Bool) :
    M (GoString × Option GoError) := do
  if (← M.client jid).isSome then
    let err ← WhatsAppIsClientOK w jid
    if err.isSome then
      return ([], err)
    let remoteJID ← M.ofOption (WhatsAppComposeJID rjid)
    if (← WhatsAppGetJID w jid remoteJID.String).IsEmpty then
      return failWith "WhatsApp Personal ID is Not Registered"
    WhatsAppComposeStatus w jid remoteJID true false
    M.defer (WhatsAppComposeStatus w jid remoteJID false false) do
      let mut imageBytes := imageBytes
      let mut imageType := imageType
      let isWhatsAppImageConvertWebP : Bool :=
        if (w.GetEnvBool "WHATSAPP_MEDIA_IMAGE_CONVERT_WEBP").2.isSome then false
        else (w.GetEnvBool "WHATSAPP_MEDIA_IMAGE_CONVERT_WEBP").1
      if imageType = str "image/webp" && isWhatsAppImageConvertWebP then
        match ← imgconv.Decode w imageBytes with
        | .error _ => return failWith "Error While Decoding Convert Image Stream"
        | .ok imgConvDecode =>
          match ← imgconv.Write w imgConvDecode { Format := .PNG } with
          | .error _ => return failWith "Error While Encoding Convert Image Stream"
          | .ok imgConvEncode =>
            imageBytes := imgConvEncode
            imageType := str "image/png"
      let isWhatsAppImageCompression : Bool :=
        if (w.GetEnvBool "WHATSAPP_MEDIA_IMAGE_COMPRESSION").2.isSome then false
        else (w.GetEnvBool "WHATSAPP_MEDIA_IMAGE_COMPRESSION").1
      if isWhatsAppImageCompression then
        match ← imgconv.Decode w imageBytes with
        | .error _ => return failWith "Error While Decoding Resize Image Stream"
        | .ok imgResizeDecode =>
          match ← imgconv.Write w
              (imgconv.Resize w imgResizeDecode { Width := 1024, Height := 0 })
              { Format := .JPEG } with
          | .error _ => return failWith "Error While Encoding Resize Image Stream"
          | .ok imgResizeEncode =>
            imageBytes := imgResizeEncode
      match ← imgconv.Decode w imageBytes with
      | .error _ => return failWith "Error While Decoding Thumbnail Image Stream"
      | .ok imgThumbDecode =>
        match ← imgconv.Write w
            (imgconv.Resize w imgThumbDecode { Width := 72, Height := 0 })
            { Format := .JPEG } with
        | .error _ => return failWith "Error While Encoding Thumbnail Image Stream"
        | .ok imgThumbEncode =>
          match ← whatsmeow.Client.Upload w jid imageBytes .MediaImage with
          | .error _ => return failWith "Error While Uploading Media to WhatsApp Server"
          | .ok imageUploaded =>
            match ← whatsmeow.Client.Upload w jid imgThumbEncode .MediaLinkThumbnail with
            | .error _ =>
              return failWith "Error while Uploading Image Thumbnail to WhatsApp Server"
            | .ok imageThumbUploaded =>
              let msgID ← whatsmeow.GenerateMessageID w
              let msgContent := waproto.Message.ImageMessage
                (mediaFields imageUploaded imageType) imageCaption
                { JpegThumbnail := imgThumbEncode
                  ThumbnailDirectPath := imageThumbUploaded.DirectPath
                  ThumbnailSha256 := imageThumbUploaded.FileSHA256
                  ThumbnailEncSha256 := imageThumbUploaded.FileEncSHA256 }
                isViewOnce
              let err ← whatsmeow.Client.SendMessage w jid remoteJID msgContent msgID
              if err.isSome then
                return ([], err)
              return (msgID, none)
  else
    return failWith "WhatsApp Client is not Valid"

/-- Function `WhatsAppSendAudio` (whatsapp.go 639-692). -/
def WhatsAppSendAudio (w : World) (jid rjid : GoString) (audioBytes : List UInt8)
    (audioType : GoString) : M (GoString × Option GoError) := do
  if (← M.client jid).isSome then
    let err ← WhatsAppIsClientOK w jid
    if err.isSome then
      return ([], err)
    let remoteJID ← M.ofOption (WhatsAppComposeJID rjid)
    if (← WhatsAppGetJID w jid remoteJID.String).IsEmpty then
      return failWith "WhatsApp Personal ID is Not Registered"
    WhatsAppComposeStatus w jid remoteJID true true
    M.defer (WhatsAppComposeStatus w jid remoteJID false true) do
      match ← whatsmeow.Client.Upload w jid audioBytes .MediaAudio with
      | .error _ => return failWith "Error While Uploading Media to WhatsApp Server"
      | .ok audioUploaded =>
        let msgID ← whatsmeow.GenerateMessageID w
        let msgContent := waproto.Message.AudioMessage (mediaFields audioUploaded audioType)
        let err ← whatsmeow.Client.SendMessage w jid remoteJID msgContent msgID
        if err.isSome then
          return ([], err)
        return (msgID, none)
  else
    return failWith "WhatsApp Client is not Valid"

/-- Function `WhatsAppSendVideo` (whatsapp.go 694-749). -/
def WhatsAppSendVideo (w : World) (jid rjid : GoString) (videoBytes : List UInt8)
    (videoType videoCaption : GoString) (isViewOnce : Bool) :
    M (GoString × Option GoError) := do
  if (← M.client jid).isSome then
    let err ← WhatsAppIsClientOK w jid
    if err.isSome then
      return ([], err)
    let remoteJID ← M.ofOption (WhatsAppComposeJID rjid)
    if (← WhatsAppGetJID w jid remoteJID.String).IsEmpty then
      return failWith "WhatsApp Personal ID is Not Registered"
    WhatsAppComposeStatus w jid remoteJID true false
    M.defer (WhatsAppComposeStatus w jid remoteJID false false) do
      match ← whatsmeow.Client.Upload w jid videoBytes .MediaVideo with
      | .error _ => return failWith "Error While Uploading Media to WhatsApp Server"
      | .ok videoUploaded =>
        let msgID ← whatsmeow.GenerateMessageID w
        let msgContent := waproto.Message.VideoMessage
          (mediaFields videoUploaded videoType) videoCaption isViewOnce
        let err ← whatsmeow.Client.SendMessage w jid remoteJID msgContent msgID
        if err.isSome then
          return ([], err)
        return (msgID, none)
  else
    return failWith "WhatsApp Client is not Valid"

/-- Function `WhatsAppSendContact` (whatsapp.go 751-795). -/
def WhatsAppSendContact (w : World) (jid rjid contactName contactNumber : GoString) :
    M (GoString × Option GoError) := do
  if (← M.client jid).isSome then
    let err ← WhatsAppIsClientOK w jid
    if err.isSome then
      return ([], err)
    let remoteJID ← M.ofOption (WhatsAppComposeJID rjid)
    if (← WhatsAppGetJID w jid remoteJID.String).IsEmpty then
      return failWith "WhatsApp Personal ID is Not Registered"
    WhatsAppComposeStatus w jid remoteJID true false
    M.defer (WhatsAppComposeStatus w jid remoteJID false false) do
      let msgID ← whatsmeow.GenerateMessageID w
      let msgVCard := str "BEGIN:VCARD\nVERSION:3.0\nN:;" ++ contactName ++ str ";;;\nFN:" ++
        contactName ++ str "\nTEL;type=CELL;waid=" ++ contactNumber ++ str ":+" ++
        contactNumber ++ str "\nEND:VCARD"
      let msgContent := waproto.Message.ContactMessage contactName msgVCard
      let err ← whatsmeow.Client.SendMessage w jid remoteJID msgContent msgID
      if err.isSome then
        return ([], err)
      return (msgID, none)
  else
    return failWith "WhatsApp Client is not Valid"

/-- The payload composed by `WhatsAppSendLink` (whatsapp.go 821-841). -/
def linkMessage (w : World) (linkCaption linkURL : GoString) : waproto.ExtendedTextMessage :=
  let msgCaption := str "Open Link"
  let msgText := linkURL
  let supplied : Bool := (strings.TrimSpace w linkCaption).length > 0
  let msgCaption := if supplied then linkCaption else msgCaption
  let msgText := if supplied then linkCaption ++ str "\n" ++ linkURL else msgText
  { Text := msgText
    MatchedText := msgCaption
    CanonicalUrl := linkURL
    ContextInfo_ActionLink := { Url := linkURL, ButtonTitle := msgCaption } }

/-- Function `WhatsAppSendLink` (whatsapp.go 797-854). -/
def WhatsAppSendLink (w : World) (jid rjid linkCaption linkURL : GoString) :
    M (GoString × Option GoError) := do
  if (← M.client jid).isSome then
    let err ← WhatsAppIsClientOK w jid
    if err.isSome then
      return ([], err)
    let remoteJID ← M.ofOption (WhatsAppComposeJID rjid)
    if (← WhatsAppGetJID w jid remoteJID.String).IsEmpty then
      return failWith "WhatsApp Personal ID is Not Registered"
    WhatsAppComposeStatus w jid remoteJID true false
    M.defer (WhatsAppComposeStatus w jid remoteJID false false) do
      let msgID ← whatsmeow.GenerateMessageID w
      let msgContent := waproto.Message.ExtendedTextMessage (linkMessage w linkCaption linkURL)
      let err ← whatsmeow.Client.SendMessage w jid remoteJID msgContent msgID
      if err.isSome then
        return ([], err)
      return (msgID, none)
  else
    return failWith "WhatsApp Client is not Valid"

/-- Function `WhatsAppSendSticker` (whatsapp.go 856-924). -/
def WhatsAppSendSticker (w : World) (jid rjid : GoString) (stickerBytes : List UInt8) :
    M (GoString × Option GoError) := do
  if (← M.client jid).isSome then
    let err ← WhatsAppIsClientOK w jid
    if err.isSome then
      return ([], err)
    let remoteJID ← M.ofOption (WhatsAppComposeJID rjid)
    if (← WhatsAppGetJID w jid remoteJID.String).IsEmpty then
      return failWith "WhatsApp Personal ID is Not Registered"
    WhatsAppComposeStatus w jid remoteJID true false
    M.defer (WhatsAppComposeStatus w jid remoteJID false false) do
      match ← imgconv.Decode w stickerBytes with
      | .error _ => return failWith "Error While Decoding Convert Sticker Stream"
      | .ok stickerConvDecode =>
        let stickerConvResize := imgconv.Resize w stickerConvDecode { Width := 512, Height := 512 }
        match ← webp.Encode w stickerConvResize with
        | .error _ => return failWith "Error While Encoding Convert Sticker Stream"
        | .ok stickerConvEncode =>
          let stickerBytes := stickerConvEncode
          match ← whatsmeow.Client.Upload w jid stickerBytes .MediaImage with
          | .error _ => return failWith "Error While Uploading Media to WhatsApp Server"
          | .ok stickerUploaded =>
            let msgID ← whatsmeow.GenerateMessageID w
            let msgContent := waproto.Message.StickerMessage
              (mediaFields stickerUploaded (str "image/webp"))
            let err ← whatsmeow.Client.SendMessage w jid remoteJID msgContent msgID
            if err.isSome then
              return ([], err)
            return (msgID, none)
  else
    return failWith "WhatsApp Client is not Valid"

/-! ## Pairing and group listing (`WhatsAppGenerateQR`, `WhatsAppLogin`, `WhatsAppGetGroup`) -/

/-- Method `Client.GetJoinedGroups`. -/
def whatsmeow.Client.GetJoinedGroups (w : World) (jid : GoString) :
    M (Except GoError (List types.GroupInfo)) :=
  M.perform (fun h => w.GetJoinedGroups h jid) (fun r => Call.GetJoinedGroups jid (errOf r))

/-- Method `Client.GetQRChannel`. -/
def whatsmeow.Client.GetQRChannel (w : World) (jid : GoString) :
    M (Except GoError (List whatsmeow.QRChannelItem)) :=
  M.perform (fun h => w.GetQRChannel h jid) (fun r => Call.GetQRChannel jid (errOf r))

/-- Function `WhatsAppGenerateQR` (whatsapp.go 153-173), as a function of
the events the channel delivers: the background task forwards the first
"code" event, the caller renders its code and returns it with its time to
live.  `none`: no "code" event arrives and the caller waits for ever. -/
def WhatsAppGenerateQR (w : World) (qrChan : List whatsmeow.QRChannelItem) :
    Option (GoString × Int) :=
  match qrChan.find? (fun evt => evt.Event == str "code") with
  | none => none
  | some evt =>
    let qrTemp := evt.Code
    let qrPNG := w.QREncode qrTemp
    some (w.EncodeToString qrPNG, evt.TimeoutSeconds)

/-- Function `WhatsAppLogin` (whatsapp.go 175-213).  The value `none` is a
call that does not return (it waits in `WhatsAppGenerateQR`); a channel
that `GetQRChannel` failed to open delivers nothing. -/
def WhatsAppLogin (w : World) (jid : GoString) :
    M (Option (GoString × Int × Option GoError)) := do
  match ← M.client jid with
  | some client =>
    whatsmeow.Client.Disconnect jid
    if client.Store.ID.isNone then
      let qrChanGenerate : List whatsmeow.QRChannelItem :=
        match ← whatsmeow.Client.GetQRChannel w jid with
        | .ok events => events
        | .error _ => []
      let err ← whatsmeow.Client.Connect w jid
      if err.isSome then
        return some ([], 0, err)
      match WhatsAppGenerateQR w qrChanGenerate with
      | none => return none
      | some (qrImage, qrTimeout) =>
        let _ ← whatsmeow.Client.SendPresence w jid .PresenceAvailable
        return some (str "data:image/png;base64," ++ qrImage, qrTimeout, none)
    else
      let err ← WhatsAppReconnect w jid
      if err.isSome then
        return some ([], 0, err)
      return some (str "WhatsApp Client is Reconnected", 0, none)
  | none =>
    return some ([], 0, some (errors.New "WhatsApp Client is not Valid"))

/-- Function `WhatsAppGetGroup` (whatsapp.go 926-954). -/
def WhatsAppGetGroup (w : World) (jid : GoString) :
    M (List types.GroupInfo × Option GoError) := do
  if (← M.client jid).isSome then
    let err ← WhatsAppIsClientOK w jid
    if err.isSome then
      return ([], err)
    match ← whatsmeow.Client.GetJoinedGroups w jid with
    | .error e => return ([], some e)
    | .ok groups =>
      let gids : List types.GroupInfo := groups.foldl (fun gids group => gids ++ [group]) []
      return (gids, none)
  else
    return ([], some (errors.New "WhatsApp Client is not Valid"))

/-! ## The nine send operations as one family -/

/-- The arguments of a send operation after the session key and the
recipient id, one constructor per operation. -/
inductive SendRequest where
  | Text (message : GoString)
  | Location (latitude longitude : Nat)
  | Document (fileBytes : List UInt8) (fileType fileName : GoString)
  | Image (imageBytes : List UInt8) (imageType imageCaption : GoString) (isViewOnce : Bool)
  | Audio (audioBytes : List UInt8) (audioType : GoString)
  | Video (videoBytes : List UInt8) (videoType videoCaption : GoString) (isViewOnce : Bool)
  | Contact (contactName contactNumber : GoString)
  | Link (linkCaption linkURL : GoString)
  | Sticker (stickerBytes : List UInt8)
deriving DecidableEq, Repr

/-- Run the send operation a request names. -/
def WhatsAppSend (w : World) (jid rjid : GoString) (req : SendRequest) :
    M (GoString × Option GoError) :=
  match req with
  | .Text message => WhatsAppSendText w jid rjid message
  | .Location latitude longitude => WhatsAppSendLocation w jid rjid latitude longitude
  | .Document fileBytes fileType fileName =>
    WhatsAppSendDocument w jid rjid fileBytes fileType fileName
  | .Image imageBytes imageType imageCaption isViewOnce =>
    WhatsAppSendImage w jid rjid imageBytes imageType imageCaption isViewOnce
  | .Audio audioBytes audioType => WhatsAppSendAudio w jid rjid audioBytes audioType
  | .Video videoBytes videoType videoCaption isViewOnce =>
    WhatsAppSendVideo w jid rjid videoBytes videoType videoCaption isViewOnce
  | .Contact contactName contactNumber =>
    WhatsAppSendContact w jid rjid contactName contactNumber
  | .Link linkCaption linkURL => WhatsAppSendLink w jid rjid linkCaption linkURL
  | .Sticker stickerBytes => WhatsAppSendSticker w jid rjid stickerBytes

/-- The media send operations: document, image, audio, video, sticker. -/
def SendRequest.isMedia : SendRequest → Bool
  | .Document _ _ _ => true
  | .Image _ _ _ _ => true
  | .Audio _ _ => true
  | .Video _ _ _ _ => true
  | .Sticker _ => true
  | _ => false

/-- The presence medium an operation announces: audio for the audio
send, text for the others. -/
def SendRequest.isAudio : SendRequest → Bool
  | .Audio _ _ => true
  | _ => false

/-! ## Reading results and traces -/

/-- The state in which a run ended. -/
def Res.state {α : Type} : Res α → State
  | Res.ok _ s => s
  | Res.panic s => s

/-- The value a run returned, if it returned. -/
def Res.value {α : Type} : Res α → Option α
  | Res.ok a _ => some a
  | Res.panic _ => none

/-- The calls a run made: the trace of its end state after the trace of
its start state. -/
def callsOf {α : Type} (x : M α) (s : State) : List Call :=
  (x s).state.trace.drop s.trace.length

/-- A call of `Client.SendChatPresence`. -/
def Call.isChatPresence : Call → Bool
  | .SendChatPresence _ _ _ _ _ => true
  | _ => false

/-- A call of `Client.SendMessage` (dispatch). -/
def Call.isSendMessage : Call → Bool
  | .SendMessage _ _ _ _ _ => true
  | _ => false

/-- A call of `Client.Upload`. -/
def Call.isUpload : Call → Bool
  | .Upload _ _ _ _ => true
  | _ => false

/-- A media decode or encode call (`imgconv.Decode`, `imgconv.Write`,
`webp.Encode`). -/
def Call.isMediaStage : Call → Bool
  | .Decode _ _ => true
  | .Write _ _ _ => true
  | .WebpEncode _ _ => true
  | _ => false

/-- An `Upload` call or a media decode/encode call that returned an
error. -/
def Call.isFailedMediaStep : Call → Bool
  | .Upload _ _ _ err => err.isSome
  | .Decode _ err => err.isSome
  | .Write _ _ err => err.isSome
  | .WebpEncode _ err => err.isSome
  | _ => false

/-- A call of `Client.Connect`. -/
def Call.isConnect : Call → Bool
  | .Connect _ _ => true
  | _ => false

/-- A call of `NewDevice` on the datastore. -/
def Call.isNewDevice : Call → Bool
  | .NewDevice => true
  | _ => false

/-! ## Decomposition of the send operations used by the proofs -/

/-- The part of an id before its first `@` (all of the id when it has
none). -/
def beforeAt (id : GoString) : GoString := id.takeWhile (fun c => c != 64)

/-- The frame the nine send operations share (for the text send,
whatsapp.go 364-381 and 400-401): registry test, session check,
recipient resolution, composing presence, deferred paused presence around
the operation's own steps `body`. -/
def sendFrame (w : World) (jid rjid : GoString) (isAudio : Bool)
    (body : types.JID → M (GoString × Option GoError)) : M (GoString × Option GoError) := do
  if (← M.client jid).isSome then
    let err ← WhatsAppIsClientOK w jid
    if err.isSome then
      return ([], err)
    let remoteJID ← M.ofOption (WhatsAppComposeJID rjid)
    if (← WhatsAppGetJID w jid remoteJID.String).IsEmpty then
      return failWith "WhatsApp Personal ID is Not Registered"
    WhatsAppComposeStatus w jid remoteJID true isAudio
    M.defer (WhatsAppComposeStatus w jid remoteJID false isAudio) (body remoteJID)
  else
    return failWith "WhatsApp Client is not Valid"

/-- The steps of each send operation that run between the two presence
calls, copied from the operation. -/
def sendBody (w : World) (jid : GoString) (req : SendRequest) (remoteJID : types.JID) :
    M (GoString × Option GoError) :=
  match req with
  | .Text message => do
      let msgID ← whatsmeow.GenerateMessageID w
      let msgContent := waproto.Message.Conversation message
      let err ← whatsmeow.Client.SendMessage w jid remoteJID msgContent msgID
      if err.isSome then
        return ([], err)
      return (msgID, none)
  | .Location latitude longitude => do
      let msgID ← whatsmeow.GenerateMessageID w
      let msgContent := waproto.Message.LocationMessage latitude longitude
      let err ← whatsmeow.Client.SendMessage w jid remoteJID msgContent msgID
      if err.isSome then
        return ([], err)
      return (msgID, none)
  | .Document fileBytes fileType fileName => do
      match ← whatsmeow.Client.Upload w jid fileBytes .MediaDocument with
      | .error _ => return failWith "Error While Uploading Media to WhatsApp Server"
      | .ok fileUploaded =>
        let msgID ← whatsmeow.GenerateMessageID w
        let msgContent := waproto.Message.DocumentMessage
          (mediaFields fileUploaded fileType) fileName fileName
        let err ← whatsmeow.Client.SendMessage w jid remoteJID msgContent msgID
        if err.isSome then
          return ([], err)
        return (msgID, none)
  | .Image imageBytes imageType imageCaption isViewOnce => do
      let mut imageBytes := imageBytes
      let mut imageType := imageType
      let isWhatsAppImageConvertWebP : Bool :=
        if (w.GetEnvBool "WHATSAPP_MEDIA_IMAGE_CONVERT_WEBP").2.isSome then false
        else (w.GetEnvBool "WHATSAPP_MEDIA_IMAGE_CONVERT_WEBP").1
      if imageType = str "image/webp" && isWhatsAppImageConvertWebP then
        match ← imgconv.Decode w imageBytes with
        | .error _ => return failWith "Error While Decoding Convert Image Stream"
        | .ok imgConvDecode =>
          match ← imgconv.Write w imgConvDecode { Format := .PNG } with
          | .error _ => return failWith "Error While Encoding Convert Image Stream"
          | .ok imgConvEncode =>
            imageBytes := imgConvEncode
            imageType := str "image/png"
      let isWhatsAppImageCompression : Bool :=
        if (w.GetEnvBool "WHATSAPP_MEDIA_IMAGE_COMPRESSION").2.isSome then false
        else (w.GetEnvBool "WHATSAPP_MEDIA_IMAGE_COMPRESSION").1
      if isWhatsAppImageCompression then
        match ← imgconv.Decode w imageBytes with
        | .error _ => return failWith "Error While Decoding Resize Image Stream"
        | .ok imgResizeDecode =>
          match ← imgconv.Write w
              (imgconv.Resize w imgResizeDecode { Width := 1024, Height := 0 })
              { Format := .JPEG } with
          | .error _ => return failWith "Error While Encoding Resize Image Stream"
          | .ok imgResizeEncode =>
            imageBytes := imgResizeEncode
      match ← imgconv.Decode w imageBytes with
      | .error _ => return failWith "Error While Decoding Thumbnail Image Stream"
      | .ok imgThumbDecode =>
        match ← imgconv.Write w
            (imgconv.Resize w imgThumbDecode { Width := 72, Height := 0 })
            { Format := .JPEG } with
        | .error _ => return failWith "Error While Encoding Thumbnail Image Stream"
        | .ok imgThumbEncode =>
          match ← whatsmeow.Client.Upload w jid imageBytes .MediaImage with
          | .error _ => return failWith "Error While Uploading Media to WhatsApp Server"
          | .ok imageUploaded =>
            match ← whatsmeow.Client.Upload w jid imgThumbEncode .MediaLinkThumbnail with
            | .error _ =>
              return failWith "Error while Uploading Image Thumbnail to WhatsApp Server"
            | .ok imageThumbUploaded =>
              let msgID ← whatsmeow.GenerateMessageID w
              let msgContent := waproto.Message.ImageMessage
                (mediaFields imageUploaded imageType) imageCaption
                { JpegThumbnail := imgThumbEncode
                  ThumbnailDirectPath := imageThumbUploaded.DirectPath
                  ThumbnailSha256 := imageThumbUploaded.FileSHA256
                  ThumbnailEncSha256 := imageThumbUploaded.FileEncSHA256 }
                isViewOnce
              let err ← whatsmeow.Client.SendMessage w jid remoteJID msgContent msgID
              if err.isSome then
                return ([], err)
              return (msgID, none)
  | .Audio audioBytes audioType => do
      match ← whatsmeow.Client.Upload w jid audioBytes .MediaAudio with
      | .error _ => return failWith "Error While Uploading Media to WhatsApp Server"
      | .ok audioUploaded =>
        let msgID ← whatsmeow.GenerateMessageID w
        let msgContent := waproto.Message.AudioMessage (mediaFields audioUploaded audioType)
        let err ← whatsmeow.Client.SendMessage w jid remoteJID msgContent msgID
        if err.isSome then
          return ([], err)
        return (msgID, none)
  | .Video videoBytes videoType videoCaption isViewOnce => do
      match ← whatsmeow.Client.Upload w jid videoBytes .MediaVideo with
      | .error _ => return failWith "Error While Uploading Media to WhatsApp Server"
      | .ok videoUploaded =>
        let msgID ← whatsmeow.GenerateMessageID w
        let msgContent := waproto.Message.VideoMessage
          (mediaFields videoUploaded videoType) videoCaption isViewOnce
        let err ← whatsmeow.Client.SendMessage w jid remoteJID msgContent msgID
        if err.isSome then
          return ([], err)
        return (msgID, none)
  | .Contact contactName contactNumber => do
      let msgID ← whatsmeow.GenerateMessageID w
      let msgVCard := str "BEGIN:VCARD\nVERSION:3.0\nN:;" ++ contactName ++ str ";;;\nFN:" ++
        contactName ++ str "\nTEL;type=CELL;waid=" ++ contactNumber ++ str ":+" ++
        contactNumber ++ str "\nEND:VCARD"
      let msgContent := waproto.Message.ContactMessage contactName msgVCard
      let err ← whatsmeow.Client.SendMessage w jid remoteJID msgContent msgID
      if err.isSome then
        return ([], err)
      return (msgID, none)
  | .Link linkCaption linkURL => do
      let msgID ← whatsmeow.GenerateMessageID w
      let msgContent := waproto.Message.ExtendedTextMessage (linkMessage w linkCaption linkURL)
      let err ← whatsmeow.Client.SendMessage w jid remoteJID msgContent msgID
      if err.isSome then
        return ([], err)
      return (msgID, none)
  | .Sticker stickerBytes => do
      match ← imgconv.Decode w stickerBytes with
      | .error _ => return failWith "Error While Decoding Convert Sticker Stream"
      | .ok stickerConvDecode =>
        let stickerConvResize := imgconv.Resize w stickerConvDecode { Width := 512, Height := 512 }
        match ← webp.Encode w stickerConvResize with
        | .error _ => return failWith "Error While Encoding Convert Sticker Stream"
        | .ok stickerConvEncode =>
          let stickerBytes := stickerConvEncode
          match ← whatsmeow.Client.Upload w jid stickerBytes .MediaImage with
          | .error _ => return failWith "Error While Uploading Media to WhatsApp Server"
          | .ok stickerUploaded =>
            let msgID ← whatsmeow.GenerateMessageID w
            let msgContent := waproto.Message.StickerMessage
              (mediaFields stickerUploaded (str "image/webp"))
            let err ← whatsmeow.Client.SendMessage w jid remoteJID msgContent msgID
            if err.isSome then
              return ([], err)
            return (msgID, none)

/-- What the steps between the two presence calls guarantee, for the
result `res` they return and the calls `mid` they make: no presence call
of their own, and after a failed upload or media stage an error result
with an empty message id and no dispatch. -/
def BodyOK (res : GoString × Option GoError) (mid : List Call) : Prop :=
  mid.all (fun c => !c.isChatPresence) = true ∧
  (mid.any Call.isFailedMediaStep = true →
    res.1 = [] ∧ res.2.isSome = true ∧ mid.all (fun c => !c.isSendMessage) = true)

/-- The operation `x` returns from every state, changes nothing but the
trace, and its result and the calls it appends satisfy `P`. -/
def Safe {α : Type} (x : M α) (P : α → List Call → Prop) : Prop :=
  ∀ s : State, ∃ a mid, x s = Res.ok a { s with trace := s.trace ++ mid } ∧ P a mid

/-- The key `jid` has a session in the registry of `s`. -/
def HasSession (jid : GoString) (s : State) : Prop := (s.WhatsAppClient jid).isSome = true

/-- From every state that satisfies `pre` the operation `x` returns, in
a state that satisfies `post`. -/
def Returns {α : Type} (x : M α) (pre post : State → Prop) : Prop :=
  ∀ s : State, pre s → ∃ a s1, x s = Res.ok a s1 ∧ post s1

/-- A status or registration query (`IsConnected`, `IsLoggedIn`,
`IsOnWhatsApp`): the calls of the session check and of the recipient
resolution. -/
def Call.isQuery : Call → Bool
  | .IsConnected _ _ => true
  | .IsLoggedIn _ _ => true
  | .IsOnWhatsApp _ _ _ => true
  | _ => false

/-- The chat-presence state announced for `isComposing`. -/
def presenceState (isComposing : Bool) : types.ChatPresence :=
  if isComposing then .ChatPresenceComposing else .ChatPresencePaused

/-- The chat-presence medium announced for `isAudio`. -/
def presenceMedia (isAudio : Bool) : types.ChatPresenceMedia :=
  if isAudio then .ChatPresenceMediaAudio else .ChatPresenceMediaText

/-- The call with which a send operation announces composing to the
recipient `rj`; `e` is the error the engine returned (it is discarded). -/
def composingCall (jid : GoString) (rj : types.JID) (isAudio : Bool) (e : Option GoError) :
    Call :=
  Call.SendChatPresence jid rj .ChatPresenceComposing (presenceMedia isAudio) e

/-- The call with which a send operation reverts the presence to paused. -/
def pausedCall (jid : GoString) (rj : types.JID) (isAudio : Bool) (e : Option GoError) :
    Call :=
  Call.SendChatPresence jid rj .ChatPresencePaused (presenceMedia isAudio) e

/-- The state `s` after the calls `l` have been appended to its trace. -/
def State.extend (s : State) (l : List Call) : State := { s with trace := s.trace ++ l }

/-- A call of `Client.GetQRChannel` (opening the pairing-event feed). -/
def Call.isGetQRChannel : Call → Bool
  | .GetQRChannel _ _ => true
  | _ => false

/-- A call of `Client.IsOnWhatsApp` (the registration check). -/
def Call.isRegistrationCheck : Call → Bool
  | .IsOnWhatsApp _ _ _ => true
  | _ => false

/-! ## Concrete collaborators and states for the examples -/

/-- The identifier the example engine reports for a registered number. -/
def exampleJID : types.JID := types.NewJID (str "628123456789") types.DefaultUserServer

/-- An upload answer of the example engine. -/
def exampleUpload (data : List UInt8) : whatsmeow.UploadResponse :=
  { URL := str "https://mmg.whatsapp.net/d/f/a.enc", DirectPath := str "/d/f/a.enc",
    MediaKey := [1], FileEncSHA256 := [2], FileSHA256 := [3], FileLength := data.length }

/-- Collaborators whose every call succeeds: the session is connected and
logged in, every number is registered, every media stage, upload and
dispatch succeeds; no environment variable is set. -/
def exampleWorld : World where
  WhatsAppClientProxyURL := []
  WhatsAppUserAgentName := str "Go WhatsApp"
  WhatsAppUserAgentType := str "chrome"
  GetEnvInt := fun _ => (0, some (errors.New "environment variable is not set"))
  GetEnvBool := fun _ => (false, some (errors.New "environment variable is not set"))
  MapToLower := fun s => s
  TrimFuncIsSpace := fun s => s
  TrimRightFuncIsSpace := fun s => s
  NewDevice := fun _ => { ID := none }
  Connect := fun _ _ => none
  SendPresence := fun _ _ _ => none
  Logout := fun _ _ => none
  StoreDelete := fun _ _ => none
  IsConnected := fun _ _ => true
  IsLoggedIn := fun _ _ => true
  IsOnWhatsApp := fun _ _ phones =>
    Except.ok (phones.map fun p => { Query := p, JID := exampleJID, IsIn := true })
  SendChatPresence := fun _ _ _ _ _ => none
  Upload := fun _ _ data _ => Except.ok (exampleUpload data)
  GenerateMessageID := fun _ => str "3EB0C767D097B7C7C3F4"
  SendMessage := fun _ _ _ _ _ => none
  Decode := fun _ data => Except.ok { Dx := 2048, Dy := 1024, Pix := data }
  Resample := fun img _ _ => img.Pix
  Write := fun _ img _ => Except.ok img.Pix
  WebpEncode := fun _ img => Except.ok img.Pix
  GetJoinedGroups := fun _ _ => Except.ok []
  GetQRChannel := fun _ _ =>
    Except.ok [{ Event := str "code", Code := str "2@pairing-code", TimeoutSeconds := 60 }]
  QREncode := fun content => content
  EncodeToString := fun data => data

/-- The example collaborators, except that no number is registered. -/
def unregisteredWorld : World :=
  { exampleWorld with
    IsOnWhatsApp := fun _ _ phones =>
      Except.ok (phones.map fun p => { Query := p, JID := types.EmptyJID, IsIn := false }) }

/-- The example collaborators, except that the upload of a thumbnail is
refused. -/
def thumbnailRefusedWorld : World :=
  { exampleWorld with
    Upload := fun _ _ data kind =>
      if kind = whatsmeow.MediaType.MediaLinkThumbnail then
        Except.error (errors.New "upload refused")
      else Except.ok (exampleUpload data) }

/-- The example collaborators, except that the session is not
connected. -/
def disconnectedWorld : World :=
  { exampleWorld with IsConnected := fun _ _ => false }

/-- The example collaborators, except that the session is connected but
not logged in. -/
def loggedOutWorld : World :=
  { exampleWorld with IsLoggedIn := fun _ _ => false }

/-- The example collaborators, except that `Connect` fails. -/
def connectRefusedWorld : World :=
  { exampleWorld with Connect := fun _ _ => some (errors.New "connect refused") }

/-- The session key of the examples. -/
def exampleKey : GoString := str "tenant-a"

/-- A state whose registry holds one session, under `exampleKey`. -/
def exampleState (c : whatsmeow.Client) : State where
  WhatsAppClient := fun k => if k = exampleKey then some c else none
  DeviceProps := { Os := str "whatsmeow", PlatformType := .DeviceProps_UNKNOWN,
                   RequireFullSync := false, Primary := 0, Secondary := 1, Tertiary := 0 }
  version := { Major := 0, Minor := 0, Patch := 0 }
  trace := []

/-- A client that has completed pairing. -/
def pairedClient : whatsmeow.Client := whatsmeow.NewClient { ID := some exampleJID }

/-- A client without durable device identity (`Store.ID == nil`). -/
def unpairedClient : whatsmeow.Client := whatsmeow.NewClient { ID := none }

/-! # Theorems -/

/-! ## Identity normalisation -/

theorem strings.Split_head (s : GoString) (sep : UInt8) :
    ∃ bs, strings.Split s sep = s.takeWhile (fun c => c != sep) :: bs := by
  induction s with
  | nil => exact ⟨[], rfl⟩
  | cons c cs ih =>
    obtain ⟨bs, hbs⟩ := ih
    by_cases h : c = sep
    · subst h
      exact ⟨strings.Split cs c, by simp [strings.Split]⟩
    · refine ⟨bs, ?_⟩
      simp [strings.Split, h, hbs]

theorem takeWhile_of_not_contains (s : GoString) (sep : UInt8)
    (h : strings.ContainsRune s sep = false) : s.takeWhile (fun c => c != sep) = s := by
  induction s with
  | nil => rfl
  | cons c cs ih =>
    simp only [strings.ContainsRune, List.any_cons, Bool.or_eq_false_iff] at h ih
    have hc : (c != sep) = true := by simpa [bne] using h.1
    simp only [List.takeWhile_cons, hc, if_true, ih h.2]

/-- What `WhatsAppDecomposeJID` computes: on the part of the id before
its first `@`, a fault when that part is empty, else the part without one
leading `+`. -/
theorem WhatsAppDecomposeJID_eq (id : GoString) :
    WhatsAppDecomposeJID id =
      match beforeAt id with
      | [] => none
      | c :: rest => if c == 43 then some rest else some (c :: rest) := by
  unfold WhatsAppDecomposeJID beforeAt
  by_cases h : strings.ContainsRune id 64 = true
  · obtain ⟨bs, hbs⟩ := strings.Split_head id 64
    simp only [h, if_true, hbs]
    generalize List.takeWhile (fun c => c != 64) id = p
    cases p <;> rfl
  · simp only [Bool.not_eq_true] at h
    simp only [h, takeWhile_of_not_contains id 64 h]
    cases id <;> rfl

theorem beforeAt_no_at (id : GoString) : strings.ContainsRune (beforeAt id) 64 = false := by
  induction id with
  | nil => rfl
  | cons c cs ih =>
    by_cases h : c = 64
    · subst h
      rfl
    · have hc : (c != 64) = true := by simpa [bne] using h
      simp only [beforeAt, List.takeWhile_cons, hc, if_true, strings.ContainsRune, List.any_cons,
        Bool.or_eq_false_iff]
      exact ⟨by simpa using h, ih⟩

/-- A decomposed id contains no `@`. -/
theorem WhatsAppDecomposeJID_no_at (id d : GoString) (h : WhatsAppDecomposeJID id = some d) :
    strings.ContainsRune d 64 = false := by
  rw [WhatsAppDecomposeJID_eq] at h
  have hb := beforeAt_no_at id
  cases hp : beforeAt id with
  | nil => simp [hp] at h
  | cons c rest =>
    rw [hp] at h hb
    simp only [strings.ContainsRune, List.any_cons, Bool.or_eq_false_iff] at hb
    by_cases hc : (c == 43) = true
    · simp only [hc, if_true, Option.some.injEq] at h
      subst h
      exact hb.2
    · simp only [hc, Bool.false_eq_true, if_false, Option.some.injEq] at h
      subst h
      simp only [strings.ContainsRune, List.any_cons, Bool.or_eq_false_iff]
      exact hb

/-! ## Running operations: unfolding lemmas -/

theorem M.bind_apply {α β : Type} (x : M α) (f : α → M β) (s : State) :
    (x >>= f) s = match x s with
      | Res.ok a s1 => f a s1
      | Res.panic s1 => Res.panic s1 := rfl

theorem M.pure_apply {α : Type} (a : α) (s : State) : (pure a : M α) s = Res.ok a s := rfl

theorem M.perform_apply {α : Type} (answer : List Call → α) (record : α → Call) (s : State) :
    M.perform answer record s =
      Res.ok (answer s.trace) { s with trace := s.trace ++ [record (answer s.trace)] } := rfl

theorem safe_of_pure {α : Type} (a : α) (P : α → List Call → Prop) (h : P a []) :
    Safe (pure a) P := by
  intro s
  exact ⟨a, [], by simp [M.pure_apply], h⟩

theorem safe_of_pure_bind {α β : Type} (a : α) (f : α → M β) (P : β → List Call → Prop)
    (h : Safe (f a) P) : Safe (pure a >>= f) P := h

theorem safe_of_perform_bind {α β : Type} (answer : List Call → α) (record : α → Call)
    (f : α → M β) (P : β → List Call → Prop)
    (h : ∀ a, Safe (f a) (fun b l => P b (record a :: l))) :
    Safe (M.perform answer record >>= f) P := by
  intro s
  obtain ⟨b, l, hb, hP⟩ := h (answer s.trace) { s with trace := s.trace ++ [record (answer s.trace)] }
  refine ⟨b, record (answer s.trace) :: l, ?_, hP⟩
  simp only [M.bind_apply, M.perform_apply, hb, List.append_assoc, List.singleton_append]

set_option maxHeartbeats 1000000 in
theorem sendBody_safe (w : World) (jid : GoString) (req : SendRequest) (rj : types.JID) :
    Safe (sendBody w jid req rj) BodyOK := by
  cases req
  all_goals simp only [sendBody, imgconv.Decode, imgconv.Write, webp.Encode,
    whatsmeow.Client.Upload, whatsmeow.GenerateMessageID, whatsmeow.Client.SendMessage]
  all_goals
    repeat' first
      | with_reducible apply safe_of_pure
      | with_reducible apply safe_of_pure_bind
      | (with_reducible apply safe_of_perform_bind; intro _)
      | split
  all_goals simp_all [BodyOK, errOf, Call.isChatPresence, Call.isFailedMediaStep, Call.isSendMessage, failWith, errors.New]

/-! ## Session check, resolution and presence: what they append -/

theorem Call.isQuery_quiet (c : Call) (h : c.isQuery = true) :
    c.isChatPresence = false ∧ c.isMediaStage = false ∧ c.isUpload = false ∧
      c.isSendMessage = false ∧ c.isFailedMediaStep = false := by
  cases c <;> simp_all [Call.isQuery, Call.isChatPresence, Call.isMediaStage, Call.isUpload,
    Call.isSendMessage, Call.isFailedMediaStep]

theorem WhatsAppIsClientOK_run (w : World) (jid : GoString) (s : State)
    (hc : (s.WhatsAppClient jid).isSome = true) :
    ∃ e l, WhatsAppIsClientOK w jid s = Res.ok e { s with trace := s.trace ++ l } ∧
      l.all Call.isQuery = true := by
  obtain ⟨cl, hn⟩ := Option.isSome_iff_exists.mp hc
  by_cases h1 : w.IsConnected s.trace jid = true
  · by_cases h2 : w.IsLoggedIn (s.trace ++ [Call.IsConnected jid true]) jid = true
    · refine ⟨none, [Call.IsConnected jid true, Call.IsLoggedIn jid true], ?_, by simp [Call.isQuery]⟩
      simp [WhatsAppIsClientOK, M.bind_apply, M.pure_apply, M.client, hn,
        whatsmeow.Client.IsConnected, whatsmeow.Client.IsLoggedIn, M.perform_apply, h1, h2]
    · refine ⟨some (errors.New "WhatsApp Client is not Logged In"),
        [Call.IsConnected jid true, Call.IsLoggedIn jid false], ?_, by simp [Call.isQuery]⟩
      simp [WhatsAppIsClientOK, M.bind_apply, M.pure_apply, M.client, hn,
        whatsmeow.Client.IsConnected, whatsmeow.Client.IsLoggedIn, M.perform_apply, h1, h2]
  · refine ⟨some (errors.New "WhatsApp Client is not Connected"),
      [Call.IsConnected jid false], ?_, by simp [Call.isQuery]⟩
    simp [WhatsAppIsClientOK, M.bind_apply, M.pure_apply, M.client, hn,
      whatsmeow.Client.IsConnected, whatsmeow.Client.IsLoggedIn, M.perform_apply, h1]

theorem WhatsAppGetJID_run (w : World) (jid id : GoString) (s : State) :
    ∃ l, (WhatsAppGetJID w jid id s).state = { s with trace := s.trace ++ l } ∧
      l.all Call.isQuery = true := by
  by_cases hc : (s.WhatsAppClient jid).isSome = true
  · obtain ⟨cl, hn⟩ := Option.isSome_iff_exists.mp hc
    refine ⟨[Call.IsOnWhatsApp jid ([str "+" ++ id])
      (errOf (w.IsOnWhatsApp s.trace jid ([str "+" ++ id])))], ?_, by simp [Call.isQuery]⟩
    cases h : w.IsOnWhatsApp s.trace jid ([str "+" ++ id]) with
    | error e =>
      simp [WhatsAppGetJID, M.bind_apply, M.pure_apply, M.client, hn,
        whatsmeow.Client.IsOnWhatsApp, M.perform_apply, Res.state, h, errOf]
    | ok infos =>
      cases infos with
      | nil =>
        simp [WhatsAppGetJID, M.bind_apply, M.pure_apply, M.client, hn,
          whatsmeow.Client.IsOnWhatsApp, M.perform_apply, Res.state, h, errOf, M.fault]
      | cons info rest =>
        by_cases hi : info.IsIn = true <;>
        simp [WhatsAppGetJID, M.bind_apply, M.pure_apply, M.client, hn,
          whatsmeow.Client.IsOnWhatsApp, M.perform_apply, Res.state, h, errOf, hi]
  · have hn : s.WhatsAppClient jid = none := by
      cases h : s.WhatsAppClient jid <;> simp_all
    refine ⟨[], ?_, by simp⟩
    simp [WhatsAppGetJID, M.bind_apply, M.pure_apply, M.client, hn, Res.state]

theorem WhatsAppComposeStatus_run (w : World) (jid : GoString) (rj : types.JID)
    (isComposing isAudio : Bool) (s : State) (hc : (s.WhatsAppClient jid).isSome = true) :
    WhatsAppComposeStatus w jid rj isComposing isAudio s =
      Res.ok () { s with trace := s.trace ++
        [Call.SendChatPresence jid rj (presenceState isComposing) (presenceMedia isAudio)
          (w.SendChatPresence s.trace jid rj (presenceState isComposing)
            (presenceMedia isAudio))] } := by
  obtain ⟨cl, hn⟩ := Option.isSome_iff_exists.mp hc
  simp [WhatsAppComposeStatus, M.bind_apply, M.pure_apply, M.client, hn,
    whatsmeow.Client.SendChatPresence, M.perform_apply, presenceState, presenceMedia]

/-! ## The send frame -/

theorem WhatsAppSend_eq_frame (w : World) (jid rjid : GoString) (req : SendRequest) :
    WhatsAppSend w jid rjid req = sendFrame w jid rjid req.isAudio (sendBody w jid req) := by
  cases req <;> rfl

theorem callsOf_eq {α : Type} (x : M α) (s s1 : State) (l : List Call)
    (h : (x s).state = s1) (ht : s1.trace = s.trace ++ l) : callsOf x s = l := by
  simp [callsOf, h, ht]

/-- A run stopped by the session check: the error of the check is
returned with an empty id, after queries only. -/
theorem sendFrame_check_rejects (w : World) (jid rjid : GoString) (isAudio : Bool)
    (body : types.JID → M (GoString × Option GoError)) (s s1 : State) (e : GoError)
    (hc : (s.WhatsAppClient jid).isSome = true)
    (hok : WhatsAppIsClientOK w jid s = Res.ok (some e) s1) :
    sendFrame w jid rjid isAudio body s = Res.ok ([], some e) s1 ∧
      ∃ l, s1.trace = s.trace ++ l ∧ l.all Call.isQuery = true := by
  obtain ⟨e', l, hrun, hl⟩ := WhatsAppIsClientOK_run w jid s hc
  rw [hrun] at hok
  injection hok with he hs
  subst hs
  refine ⟨?_, l, rfl, hl⟩
  simp [sendFrame, M.bind_apply, M.pure_apply, M.client, hc, hrun, he]

/-- A run stopped by the recipient resolution. -/
theorem sendFrame_resolution_rejects (w : World) (jid rjid : GoString) (isAudio : Bool)
    (body : types.JID → M (GoString × Option GoError)) (s s1 s2 : State)
    (remoteJID r : types.JID)
    (hc : (s.WhatsAppClient jid).isSome = true)
    (hok : WhatsAppIsClientOK w jid s = Res.ok none s1)
    (hjid : WhatsAppComposeJID rjid = some remoteJID)
    (hget : WhatsAppGetJID w jid remoteJID.String s1 = Res.ok r s2)
    (hr : r.IsEmpty = true) :
    sendFrame w jid rjid isAudio body s =
        Res.ok (failWith "WhatsApp Personal ID is Not Registered") s2 ∧
      ∃ l, s2.trace = s.trace ++ l ∧ l.all Call.isQuery = true := by
  obtain ⟨e', l, hrun, hl⟩ := WhatsAppIsClientOK_run w jid s hc
  obtain ⟨l2, hrun2, hl2⟩ := WhatsAppGetJID_run w jid remoteJID.String s1
  rw [hget] at hrun2
  rw [hrun] at hok
  injection hok with he hs
  subst hs
  simp only [Res.state] at hrun2
  refine ⟨?_, l ++ l2, by simp [hrun2], by simp [hl, hl2]⟩
  simp [sendFrame, M.bind_apply, M.pure_apply, M.client, hc, hrun, he, hjid, M.ofOption, M.ret,
    hget, hr]

/-- A run that passes the session check and resolves the recipient:
composing presence, the body, paused presence. -/
theorem sendFrame_validated (w : World) (jid rjid : GoString) (isAudio : Bool)
    (body : types.JID → M (GoString × Option GoError))
    (P : GoString × Option GoError → List Call → Prop)
    (hb : ∀ rj, Safe (body rj) P) (s s1 s2 : State)
    (remoteJID r : types.JID)
    (hc : (s.WhatsAppClient jid).isSome = true)
    (hok : WhatsAppIsClientOK w jid s = Res.ok none s1)
    (hjid : WhatsAppComposeJID rjid = some remoteJID)
    (hget : WhatsAppGetJID w jid remoteJID.String s1 = Res.ok r s2)
    (hr : r.IsEmpty = false) :
    ∃ res mid e1 e2, sendFrame w jid rjid isAudio body s =
        Res.ok res { s2 with trace := s2.trace ++
          Call.SendChatPresence jid remoteJID .ChatPresenceComposing (presenceMedia isAudio) e1 ::
            (mid ++ [Call.SendChatPresence jid remoteJID .ChatPresencePaused
              (presenceMedia isAudio) e2]) } ∧
      P res mid ∧ ∃ l, s2.trace = s.trace ++ l ∧ l.all Call.isQuery = true := by
  obtain ⟨e', l, hrun, hl⟩ := WhatsAppIsClientOK_run w jid s hc
  obtain ⟨l2, hrun2, hl2⟩ := WhatsAppGetJID_run w jid remoteJID.String s1
  rw [hget] at hrun2
  rw [hrun] at hok
  injection hok with he hs
  subst hs
  simp only [Res.state] at hrun2
  have hc2 : (s2.WhatsAppClient jid).isSome = true := by rw [hrun2]; exact hc
  have h3 := WhatsAppComposeStatus_run w jid remoteJID true isAudio s2 hc2
  obtain ⟨res, mid, hbody, hP⟩ := hb remoteJID { s2 with trace := s2.trace ++
        [Call.SendChatPresence jid remoteJID (presenceState true) (presenceMedia isAudio)
          (w.SendChatPresence s2.trace jid remoteJID (presenceState true)
            (presenceMedia isAudio))] }
  have h4 := WhatsAppComposeStatus_run w jid remoteJID false isAudio
    { s2 with trace := s2.trace ++
        [Call.SendChatPresence jid remoteJID (presenceState true) (presenceMedia isAudio)
          (w.SendChatPresence s2.trace jid remoteJID (presenceState true)
            (presenceMedia isAudio))] ++ mid } hc2
  refine ⟨res, mid,
    w.SendChatPresence s2.trace jid remoteJID (presenceState true) (presenceMedia isAudio),
    w.SendChatPresence (s2.trace ++
        [Call.SendChatPresence jid remoteJID (presenceState true) (presenceMedia isAudio)
          (w.SendChatPresence s2.trace jid remoteJID (presenceState true)
            (presenceMedia isAudio))] ++ mid) jid remoteJID (presenceState false)
      (presenceMedia isAudio),
    ?_, hP, l ++ l2, by simp [hrun2], by simp [hl, hl2]⟩
  simp only [sendFrame, M.bind_apply, M.pure_apply, M.client, hc, hrun, he, hjid, M.ofOption,
    M.ret, hget, hr, h3, M.defer, hbody, h4, if_true, Option.isSome_none, Bool.false_eq_true,
    if_false]
  simp [presenceState, List.append_assoc]

/-- The classification on the ids for which the decomposition returns:
when `WhatsAppDecomposeJID(id)` returns `d`, `WhatsAppComposeJID(id)` is
the standard-user identifier (user `d`, server `DefaultUserServer`) for a
`d` without a hyphen and with length below 18, and the group identifier
(user `d`, server `GroupServer`) for a `d` with a hyphen or with length at
least 18. -/
theorem WhatsAppComposeJID_classifies (id d : GoString)
    (hd : WhatsAppDecomposeJID id = some d) :
    ((45 ∉ d ∧ d.length < 18) →
      WhatsAppComposeJID id = some { User := d, Server := types.DefaultUserServer }) ∧
    ((45 ∈ d ∨ 18 ≤ d.length) →
      WhatsAppComposeJID id = some { User := d, Server := types.GroupServer }) := by
  have hmem : strings.ContainsRune d 45 = true ↔ 45 ∈ d := by
    simp [strings.ContainsRune, List.any_eq_true]
  constructor
  · rintro ⟨h1, h2⟩
    have hf : strings.ContainsRune d 45 = false := by
      cases hx : strings.ContainsRune d 45
      · rfl
      · exact absurd (hmem.mp hx) h1
    have h3 : ¬ (d.length ≥ 18) := by omega
    simp [WhatsAppComposeJID, hd, hf, h3, types.NewJID]
  · rintro (h1 | h2)
    · simp [WhatsAppComposeJID, hd, hmem.mpr h1, types.NewJID]
    · simp [WhatsAppComposeJID, hd, h2, types.NewJID]

/-- The two scenarios of the specification: `628123456789` composes to a
standard-user identifier, `120363041234567890-99` to a group
identifier. -/
theorem WhatsAppComposeJID_classifies_examples :
    WhatsAppComposeJID (str "628123456789") =
        some { User := str "628123456789", Server := str "s.whatsapp.net" } ∧
    WhatsAppComposeJID (str "120363041234567890-99") =
        some { User := str "120363041234567890-99", Server := str "g.us" } :=
  ⟨(WhatsAppComposeJID_classifies (str "628123456789") (str "628123456789")
      (by decide)).1 (by decide),
   (WhatsAppComposeJID_classifies (str "120363041234567890-99")
      (str "120363041234567890-99") (by decide)).2 (by decide)⟩

/-- C1, the code at the failing inputs: for the empty id and for an id
that starts with `@` the decomposition faults at `id[0]`, and
`WhatsAppComposeJID` faults with it: it returns no identifier, where the
classification rule gives the standard-user identifier of the empty
decomposed id. -/
theorem WhatsAppComposeJID_faults_on_empty_part :
    WhatsAppDecomposeJID (str "") = none ∧ WhatsAppComposeJID (str "") = none ∧
    WhatsAppComposeJID (str "") ≠
      some { User := str "", Server := types.DefaultUserServer } ∧
    WhatsAppDecomposeJID (str "@g.us") = none ∧ WhatsAppComposeJID (str "@g.us") = none ∧
    WhatsAppComposeJID (str "@g.us") ≠
      some { User := str "", Server := types.DefaultUserServer } := by
  decide

/-- C2, counterexample: decomposing `++1` gives `+1`, and decomposing
`+1` gives `1`; the second application changes the result. -/
theorem WhatsAppDecomposeJID_not_idempotent :
    WhatsAppDecomposeJID (str "++1") = some (str "+1") ∧
    WhatsAppDecomposeJID (str "+1") = some (str "1") ∧
    str "1" ≠ str "+1" := by
  decide

/-- C2, amended: when `WhatsAppDecomposeJID(x)` returns `d`, a second
application returns `d` again provided `d` is non-empty and does not
start with `+`; when `d` starts with `+` the second application strips
that `+` too and so returns a different id. -/
theorem WhatsAppDecomposeJID_twice (x d : GoString)
    (hd : WhatsAppDecomposeJID x = some d) :
    (d ≠ [] → d.head? ≠ some 43 → WhatsAppDecomposeJID d = some d) ∧
    (d.head? = some 43 →
      WhatsAppDecomposeJID d = some d.tail ∧ WhatsAppDecomposeJID d ≠ some d) := by
  have hno := WhatsAppDecomposeJID_no_at x d hd
  have hb : beforeAt d = d := takeWhile_of_not_contains d 64 hno
  rw [WhatsAppDecomposeJID_eq, hb]
  cases d with
  | nil => simp
  | cons c rest =>
    by_cases hc : c = 43
    · subst hc
      simp
    · simp [hc]

/-- C2, amended, at concrete ids: `6281234567@domain` and `+6281234567`
decompose to `6281234567`, which decomposes to itself; `++1` decomposes
to `+1`, which decomposes to `1`. -/
theorem WhatsAppDecomposeJID_twice_examples :
    WhatsAppDecomposeJID (str "6281234567") = some (str "6281234567") ∧
    (WhatsAppDecomposeJID (str "+1") = some (str "1") ∧
      WhatsAppDecomposeJID (str "+1") ≠ some (str "+1")) :=
  ⟨(WhatsAppDecomposeJID_twice (str "6281234567@domain") (str "6281234567")
      (by decide)).1 (by decide) (by decide),
   (WhatsAppDecomposeJID_twice (str "++1") (str "+1") (by decide)).2 (by decide)⟩

/-- C3, the code at the failing inputs: for the empty id and for an id
that starts with `@` the part before the first `@` is empty and the
access `id[0]` is out of range; the function faults instead of returning
the empty string. -/
theorem WhatsAppDecomposeJID_faults_on_empty_part :
    beforeAt (str "") = str "" ∧ WhatsAppDecomposeJID (str "") = none ∧
    beforeAt (str "@domain") = str "" ∧ WhatsAppDecomposeJID (str "@domain") = none := by
  decide

/-- Every run of the send frame either stops during the session check
or the recipient resolution, having made queries only, or returns after
queries, a composing presence call, the calls of the body and a paused
presence call. -/
theorem sendFrame_cases (w : World) (jid rjid : GoString) (isAudio : Bool)
    (body : types.JID → M (GoString × Option GoError))
    (P : GoString × Option GoError → List Call → Prop)
    (hb : ∀ rj, Safe (body rj) P) (s : State) :
    (∃ l, (sendFrame w jid rjid isAudio body s).state.trace = s.trace ++ l ∧
      l.all Call.isQuery = true) ∨
    (∃ res s1 pre rj mid e1 e2, sendFrame w jid rjid isAudio body s = Res.ok res s1 ∧
      s1.trace = s.trace ++ (pre ++
        Call.SendChatPresence jid rj .ChatPresenceComposing (presenceMedia isAudio) e1 ::
          (mid ++ [Call.SendChatPresence jid rj .ChatPresencePaused
            (presenceMedia isAudio) e2])) ∧
      pre.all Call.isQuery = true ∧ P res mid) := by
  by_cases hc : (s.WhatsAppClient jid).isSome = true
  · obtain ⟨e, l, hrun, hl⟩ := WhatsAppIsClientOK_run w jid s hc
    cases e with
    | some e =>
      left
      obtain ⟨h1, l1, h2, h3⟩ := sendFrame_check_rejects w jid rjid isAudio body s _ e hc hrun
      exact ⟨l1, by rw [h1]; exact h2, h3⟩
    | none =>
      cases hjid : WhatsAppComposeJID rjid with
      | none =>
        left
        refine ⟨l, ?_, hl⟩
        simp [sendFrame, M.bind_apply, M.pure_apply, M.client, hc, hrun, hjid, M.ofOption,
          M.fault, Res.state]
      | some rj =>
        cases hget : WhatsAppGetJID w jid rj.String
            { s with trace := s.trace ++ l } with
        | panic s2 =>
          left
          obtain ⟨l2, hrun2, hl2⟩ := WhatsAppGetJID_run w jid rj.String
            { s with trace := s.trace ++ l }
          rw [hget] at hrun2
          simp only [Res.state] at hrun2
          refine ⟨l ++ l2, ?_, by simp [hl, hl2]⟩
          simp [sendFrame, M.bind_apply, M.pure_apply, M.client, hc, hrun, hjid, M.ofOption,
            M.ret, hget, Res.state, hrun2]
        | ok r s2 =>
          by_cases hr : r.IsEmpty = true
          · left
            obtain ⟨h1, l1, h2, h3⟩ := sendFrame_resolution_rejects w jid rjid isAudio body s _ s2
              rj r hc hrun hjid hget hr
            exact ⟨l1, by rw [h1]; exact h2, h3⟩
          · right
            simp only [Bool.not_eq_true] at hr
            obtain ⟨res, mid, e1, e2, h1, hP, l1, h2, h3⟩ := sendFrame_validated w jid rjid
              isAudio body P hb s _ s2 rj r hc hrun hjid hget hr
            exact ⟨res, _, l1, rj, mid, e1, e2, h1, by simp [h2], h3, hP⟩
  · left
    have hn : s.WhatsAppClient jid = none := by
      cases h : s.WhatsAppClient jid <;> simp_all
    exact ⟨[], by simp [sendFrame, M.bind_apply, M.pure_apply, M.client, hn, Res.state], by simp⟩

theorem all_isQuery_quiet (l : List Call) (h : l.all Call.isQuery = true) :
    ∀ c ∈ l, c.isChatPresence = false ∧ c.isMediaStage = false ∧ c.isUpload = false ∧
      c.isSendMessage = false ∧ c.isFailedMediaStep = false := by
  intro c hc
  exact Call.isQuery_quiet c (List.all_eq_true.mp h c hc)

theorem WhatsAppIsClientOK_needs_client (w : World) (jid : GoString) (s s1 : State)
    (e : Option GoError) (hok : WhatsAppIsClientOK w jid s = Res.ok e s1) :
    (s.WhatsAppClient jid).isSome = true := by
  cases h : s.WhatsAppClient jid with
  | some c => rfl
  | none => simp [WhatsAppIsClientOK, M.bind_apply, M.client, h, M.fault] at hok

/-! ## Claims on the send operations -/

/-- C4: for each of the nine send operations on a connected and
logged-in session (the session check returns no error): when
`WhatsAppGetJID` yields the empty identifier for the composed recipient,
the operation returns the error "WhatsApp Personal ID is Not Registered"
with an empty message id, and none of the calls it made is a media
decode/encode, an `Upload` or a `SendMessage`. -/
theorem WhatsAppSend_unregistered (w : World) (req : SendRequest) (jid rjid : GoString)
    (s s1 s2 : State) (remoteJID r : types.JID)
    (hok : WhatsAppIsClientOK w jid s = Res.ok none s1)
    (hjid : WhatsAppComposeJID rjid = some remoteJID)
    (hget : WhatsAppGetJID w jid remoteJID.String s1 = Res.ok r s2)
    (hr : r.IsEmpty = true) :
    WhatsAppSend w jid rjid req s =
        Res.ok ([], some (errors.New "WhatsApp Personal ID is Not Registered")) s2 ∧
    ∀ c ∈ callsOf (WhatsAppSend w jid rjid req) s,
      c.isMediaStage = false ∧ c.isUpload = false ∧ c.isSendMessage = false := by
  have hc := WhatsAppIsClientOK_needs_client w jid s s1 none hok
  obtain ⟨h1, l, h2, h3⟩ := sendFrame_resolution_rejects w jid rjid req.isAudio
    (sendBody w jid req) s s1 s2 remoteJID r hc hok hjid hget hr
  rw [WhatsAppSend_eq_frame]
  refine ⟨h1, ?_⟩
  have hcalls : callsOf (sendFrame w jid rjid req.isAudio (sendBody w jid req)) s = l :=
    callsOf_eq _ s s2 l (by rw [h1]; rfl) h2
  rw [hcalls]
  intro c hcl
  have hq := all_isQuery_quiet l h3 c hcl
  exact ⟨hq.2.1, hq.2.2.1, hq.2.2.2.1⟩

/-- C4 at a concrete run: an image send to a number the engine reports
as not registered returns the error after the three queries. -/
theorem WhatsAppSend_unregistered_example :
    WhatsAppSend unregisteredWorld exampleKey (str "628123456789")
        (.Image [255, 216, 255] (str "image/jpeg") (str "holiday") false)
        (exampleState pairedClient) =
      Res.ok ([], some (errors.New "WhatsApp Personal ID is Not Registered"))
        { exampleState pairedClient with trace :=
            [Call.IsConnected exampleKey true, Call.IsLoggedIn exampleKey true,
             Call.IsOnWhatsApp exampleKey [str "+628123456789@s.whatsapp.net"] none] } ∧
    ∀ c ∈ callsOf (WhatsAppSend unregisteredWorld exampleKey (str "628123456789")
        (.Image [255, 216, 255] (str "image/jpeg") (str "holiday") false))
        (exampleState pairedClient),
      c.isMediaStage = false ∧ c.isUpload = false ∧ c.isSendMessage = false :=
  WhatsAppSend_unregistered unregisteredWorld _ exampleKey (str "628123456789")
    (exampleState pairedClient)
    { exampleState pairedClient with trace :=
        [Call.IsConnected exampleKey true, Call.IsLoggedIn exampleKey true] }
    _ { User := str "628123456789", Server := str "s.whatsapp.net" } types.EmptyJID
    rfl (by decide) rfl (by decide)

/-- C5, counterexample: a text send to a recipient that resolves to the
empty identifier returns the not-registered error after exactly three
calls, the two status queries and the registration query; no
chat-presence call is made, neither composing nor paused. -/
theorem WhatsAppSendText_unregistered_no_presence :
    (WhatsAppSendText unregisteredWorld exampleKey (str "628123456789") (str "hello")
        (exampleState pairedClient)).value =
      some ([], some (errors.New "WhatsApp Personal ID is Not Registered")) ∧
    callsOf (WhatsAppSendText unregisteredWorld exampleKey (str "628123456789") (str "hello"))
        (exampleState pairedClient) =
      [Call.IsConnected exampleKey true, Call.IsLoggedIn exampleKey true,
       Call.IsOnWhatsApp exampleKey [str "+628123456789@s.whatsapp.net"] none] ∧
    (callsOf (WhatsAppSendText unregisteredWorld exampleKey (str "628123456789") (str "hello"))
        (exampleState pairedClient)).any Call.isChatPresence = false := by
  decide

/-- C5, amended: for each of the nine send operations on an existing
session.  (1) When the session check returns an error, the operation
returns that error and makes no chat-presence call.  (2) When the check
passes and `WhatsAppGetJID` yields the empty identifier, the operation
returns the not-registered error and makes no chat-presence call.
(3) When the check passes and the recipient resolves to a non-empty
identifier, the operation returns, and the calls it makes after the
resolution (before which it made queries only) are a chat-presence call
with state composing, then the calls of its own steps, none of them a
presence call, and last a chat-presence call with state paused; this
holds whatever the media stages, the uploads and the dispatch answer. -/
theorem WhatsAppSend_presence_bracket (w : World) (req : SendRequest) (jid rjid : GoString)
    (s s1 : State) :
    (∀ e, WhatsAppIsClientOK w jid s = Res.ok (some e) s1 →
      WhatsAppSend w jid rjid req s = Res.ok ([], some e) s1 ∧
      (callsOf (WhatsAppSend w jid rjid req) s).any Call.isChatPresence = false) ∧
    (∀ remoteJID r s2, WhatsAppIsClientOK w jid s = Res.ok none s1 →
      WhatsAppComposeJID rjid = some remoteJID →
      WhatsAppGetJID w jid remoteJID.String s1 = Res.ok r s2 →
      (r.IsEmpty = true →
        WhatsAppSend w jid rjid req s =
          Res.ok ([], some (errors.New "WhatsApp Personal ID is Not Registered")) s2 ∧
        (callsOf (WhatsAppSend w jid rjid req) s).any Call.isChatPresence = false) ∧
      (r.IsEmpty = false →
        ∃ res mid e1 e2, WhatsAppSend w jid rjid req s =
          Res.ok res (s2.extend (composingCall jid remoteJID req.isAudio e1 ::
            (mid ++ [pausedCall jid remoteJID req.isAudio e2]))) ∧
          mid.all (fun c => !c.isChatPresence) = true ∧
          ∃ l, s2.trace = s.trace ++ l ∧ l.all Call.isQuery = true)) := by
  have quiet : ∀ l : List Call, l.all Call.isQuery = true → l.any Call.isChatPresence = false := by
    intro l hl
    rw [List.any_eq_false]
    intro c hc
    simp [(all_isQuery_quiet l hl c hc).1]
  rw [WhatsAppSend_eq_frame]
  refine ⟨?_, ?_⟩
  · intro e hok
    have hc := WhatsAppIsClientOK_needs_client w jid s s1 _ hok
    obtain ⟨h1, l, h2, h3⟩ := sendFrame_check_rejects w jid rjid req.isAudio
      (sendBody w jid req) s s1 e hc hok
    refine ⟨h1, ?_⟩
    rw [callsOf_eq (sendFrame w jid rjid req.isAudio (sendBody w jid req)) s s1 l
      (by rw [h1]; rfl) h2]
    exact quiet l h3
  · intro remoteJID r s2 hok hjid hget
    have hc := WhatsAppIsClientOK_needs_client w jid s s1 _ hok
    refine ⟨?_, ?_⟩
    · intro hr
      obtain ⟨h1, l, h2, h3⟩ := sendFrame_resolution_rejects w jid rjid req.isAudio
        (sendBody w jid req) s s1 s2 remoteJID r hc hok hjid hget hr
      refine ⟨h1, ?_⟩
      rw [callsOf_eq (sendFrame w jid rjid req.isAudio (sendBody w jid req)) s s2 l
        (by rw [h1]; rfl) h2]
      exact quiet l h3
    · intro hr
      obtain ⟨res, mid, e1, e2, h1, hP, hl⟩ := sendFrame_validated w jid rjid req.isAudio
        (sendBody w jid req) BodyOK (sendBody_safe w jid req) s s1 s2 remoteJID r hc hok hjid
        hget hr
      exact ⟨res, mid, e1, e2, h1, hP.1, hl⟩

/-- C5, amended, at concrete runs: a send on a session that is not
connected and a send to an unregistered number make no presence call; an
image send whose thumbnail upload is refused fails between a composing
and a paused presence call. -/
theorem WhatsAppSend_presence_bracket_examples :
    (callsOf (WhatsAppSend disconnectedWorld exampleKey (str "628123456789")
        (.Text (str "hello"))) (exampleState pairedClient)).any Call.isChatPresence = false ∧
    (callsOf (WhatsAppSend unregisteredWorld exampleKey (str "628123456789")
        (.Text (str "hello"))) (exampleState pairedClient)).any Call.isChatPresence = false ∧
    ∃ res mid e1 e2, WhatsAppSend thumbnailRefusedWorld exampleKey (str "628123456789")
        (.Image [255, 216, 255] (str "image/jpeg") (str "holiday") false)
        (exampleState pairedClient) =
      Res.ok res (State.extend
        { exampleState pairedClient with trace :=
          [Call.IsConnected exampleKey true, Call.IsLoggedIn exampleKey true,
           Call.IsOnWhatsApp exampleKey [str "+628123456789@s.whatsapp.net"] none] }
        (composingCall exampleKey (types.NewJID (str "628123456789") (str "s.whatsapp.net"))
            false e1 ::
          (mid ++ [pausedCall exampleKey
            (types.NewJID (str "628123456789") (str "s.whatsapp.net")) false e2]))) ∧
      mid.all (fun c => !c.isChatPresence) = true ∧
      ∃ l, [Call.IsConnected exampleKey true, Call.IsLoggedIn exampleKey true,
         Call.IsOnWhatsApp exampleKey [str "+628123456789@s.whatsapp.net"] none] =
        (exampleState pairedClient).trace ++ l ∧ l.all Call.isQuery = true :=
  ⟨((WhatsAppSend_presence_bracket disconnectedWorld (.Text (str "hello")) exampleKey
      (str "628123456789") (exampleState pairedClient)
      { exampleState pairedClient with trace := [Call.IsConnected exampleKey false] }).1
      (errors.New "WhatsApp Client is not Connected") rfl).2,
   (((WhatsAppSend_presence_bracket unregisteredWorld (.Text (str "hello")) exampleKey
      (str "628123456789") (exampleState pairedClient)
      { exampleState pairedClient with trace :=
          [Call.IsConnected exampleKey true, Call.IsLoggedIn exampleKey true] }).2
      { User := str "628123456789", Server := str "s.whatsapp.net" } types.EmptyJID
      { exampleState pairedClient with trace :=
          [Call.IsConnected exampleKey true, Call.IsLoggedIn exampleKey true,
           Call.IsOnWhatsApp exampleKey [str "+628123456789@s.whatsapp.net"] none] }
      rfl (by decide) rfl).1 (by decide)).2,
   ((WhatsAppSend_presence_bracket thumbnailRefusedWorld
      (.Image [255, 216, 255] (str "image/jpeg") (str "holiday") false) exampleKey
      (str "628123456789") (exampleState pairedClient)
      { exampleState pairedClient with trace :=
          [Call.IsConnected exampleKey true, Call.IsLoggedIn exampleKey true] }).2
      { User := str "628123456789", Server := str "s.whatsapp.net" } exampleJID
      { exampleState pairedClient with trace :=
          [Call.IsConnected exampleKey true, Call.IsLoggedIn exampleKey true,
           Call.IsOnWhatsApp exampleKey [str "+628123456789@s.whatsapp.net"] none] }
      rfl (by decide) rfl).2 (by decide)⟩

/-- C6: for every send operation, in particular the media ones
(document, image, audio, video, sticker): when one of the calls of a run
is an `Upload` that returned an error, or a media decode/encode stage
that returned an error, the operation returns an error with an empty
message id and no call of the run is a `SendMessage`.  The thumbnail
upload of the image send is one of the `Upload` calls covered. -/
theorem WhatsAppSend_failed_media_step (w : World) (req : SendRequest) (jid rjid : GoString)
    (s : State)
    (hf : (callsOf (WhatsAppSend w jid rjid req) s).any Call.isFailedMediaStep = true) :
    ∃ e s1, WhatsAppSend w jid rjid req s = Res.ok ([], some e) s1 ∧
      (callsOf (WhatsAppSend w jid rjid req) s).all (fun c => !c.isSendMessage) = true := by
  rw [WhatsAppSend_eq_frame] at hf ⊢
  rcases sendFrame_cases w jid rjid req.isAudio (sendBody w jid req) BodyOK
    (sendBody_safe w jid req) s with ⟨l, h1, h2⟩ | ⟨res, s1, pre, rj, mid, e1, e2, h1, h2, h3, hP⟩
  · exfalso
    rw [callsOf_eq (sendFrame w jid rjid req.isAudio (sendBody w jid req)) s _ l rfl h1] at hf
    obtain ⟨c, hc, hcf⟩ := List.any_eq_true.mp hf
    have := (all_isQuery_quiet l h2 c hc).2.2.2.2
    simp [this] at hcf
  · have hcalls := callsOf_eq (sendFrame w jid rjid req.isAudio (sendBody w jid req)) s s1 _
      (by rw [h1]; rfl) h2
    rw [hcalls] at hf ⊢
    have hpre : pre.any Call.isFailedMediaStep = false := by
      rw [List.any_eq_false]
      intro c hc
      simp [(all_isQuery_quiet pre h3 c hc).2.2.2.2]
    have hpre2 : pre.all (fun c => !c.isSendMessage) = true := by
      rw [List.all_eq_true]
      intro c hc
      simp [(all_isQuery_quiet pre h3 c hc).2.2.2.1]
    have hmid : mid.any Call.isFailedMediaStep = true := by
      simpa [hpre, Call.isFailedMediaStep] using hf
    obtain ⟨hr1, hr2, hr3⟩ := hP.2 hmid
    obtain ⟨e, he⟩ := Option.isSome_iff_exists.mp hr2
    refine ⟨e, s1, ?_, ?_⟩
    · rw [h1]
      congr 1
      exact Prod.ext hr1 he
    · have hc1 : (!(Call.SendChatPresence jid rj .ChatPresenceComposing
          (presenceMedia req.isAudio) e1).isSendMessage) = true := rfl
      have hc2 : (!(Call.SendChatPresence jid rj .ChatPresencePaused
          (presenceMedia req.isAudio) e2).isSendMessage) = true := rfl
      simp only [List.all_append, List.all_cons, List.all_nil, hpre2, hr3, hc1, hc2,
        Bool.and_self, Bool.and_true]

/-- C6 at a concrete run: an image send whose first upload succeeds and
whose thumbnail upload is refused returns an error and dispatches
nothing. -/
theorem WhatsAppSend_failed_media_step_example :
    (callsOf (WhatsAppSend thumbnailRefusedWorld exampleKey (str "628123456789")
        (.Image [255, 216, 255] (str "image/jpeg") (str "holiday") false))
        (exampleState pairedClient)).any Call.isFailedMediaStep = true ∧
    ∃ e s1, WhatsAppSend thumbnailRefusedWorld exampleKey (str "628123456789")
        (.Image [255, 216, 255] (str "image/jpeg") (str "holiday") false)
        (exampleState pairedClient) = Res.ok ([], some e) s1 ∧
      (callsOf (WhatsAppSend thumbnailRefusedWorld exampleKey (str "628123456789")
        (.Image [255, 216, 255] (str "image/jpeg") (str "holiday") false))
        (exampleState pairedClient)).all (fun c => !c.isSendMessage) = true :=
  ⟨by decide, WhatsAppSend_failed_media_step thumbnailRefusedWorld _ exampleKey
    (str "628123456789") (exampleState pairedClient) (by decide)⟩

/-! ## Claims on the connection lifecycle and the registry -/

/-- For every state in which the key has a session, whatever its
`Store.ID`: `WhatsAppReconnect` disconnects, calls `Connect` and returns
the error of `Connect`; the store-empty error is never returned. -/
theorem WhatsAppReconnect_run (w : World) (jid : GoString) (s : State)
    (hc : (s.WhatsAppClient jid).isSome = true) :
    (WhatsAppReconnect w jid s).value =
        some (w.Connect (s.trace ++ [Call.Disconnect jid]) jid) ∧
      Call.Connect jid (w.Connect (s.trace ++ [Call.Disconnect jid]) jid) ∈
        callsOf (WhatsAppReconnect w jid) s := by
  obtain ⟨cl, hn⟩ := Option.isSome_iff_exists.mp hc
  cases hconn : w.Connect (s.trace ++ [Call.Disconnect jid]) jid <;>
  simp [callsOf, WhatsAppReconnect, M.bind_apply, M.pure_apply, M.client, hn,
    whatsmeow.Client.Disconnect, whatsmeow.Client.Connect, whatsmeow.Client.SendPresence,
    M.perform_apply, hconn, Res.state, Res.value]

/-- C7, the code at the failing input: the key has a session whose
`Store.ID` is absent, yet `WhatsAppReconnect` calls `Connect` and returns
no error instead of the store-empty error. -/
theorem WhatsAppReconnect_connects_without_store_id :
    (exampleState unpairedClient).WhatsAppClient exampleKey = some unpairedClient ∧
    unpairedClient.Store.ID = none ∧
    (WhatsAppReconnect exampleWorld exampleKey (exampleState unpairedClient)).value =
      some none ∧
    callsOf (WhatsAppReconnect exampleWorld exampleKey) (exampleState unpairedClient) =
      [Call.Disconnect exampleKey, Call.Connect exampleKey none,
       Call.SendPresence exampleKey .PresenceAvailable none] := by
  decide

theorem returns_of_pure {α : Type} (a : α) (pre post : State → Prop)
    (h : ∀ s, pre s → post s) : Returns (pure a) pre post := by
  intro s hs
  exact ⟨a, s, rfl, h s hs⟩

theorem returns_of_pure_bind {α β : Type} (a : α) (f : α → M β) (pre post : State → Prop)
    (h : Returns (f a) pre post) : Returns (pure a >>= f) pre post := h

theorem returns_of_modify_bind {β : Type} (m : State → State) (f : Unit → M β)
    (pre post : State → Prop) (hm : ∀ s, pre s → pre (m s))
    (h : Returns (f ()) pre post) : Returns (M.modify m >>= f) pre post := by
  intro s hs
  exact h (m s) (hm s hs)

theorem returns_of_perform_bind {α β : Type} (answer : List Call → α) (record : α → Call)
    (f : α → M β) (pre post : State → Prop)
    (hm : ∀ s l, pre s → pre { s with trace := l })
    (h : ∀ a, Returns (f a) pre post) : Returns (M.perform answer record >>= f) pre post := by
  intro s hs
  exact h _ _ (hm s _ hs)

theorem returns_of_assign_bind {β : Type} (jid : GoString) (c : whatsmeow.Client)
    (f : Unit → M β) (pre post : State → Prop)
    (h : Returns (f ()) (HasSession jid) post) :
    Returns (M.assign jid (some c) >>= f) pre post := by
  intro s _
  exact h _ (by simp [HasSession])

theorem returns_of_update_bind {β : Type} (jid : GoString)
    (u : whatsmeow.Client → whatsmeow.Client) (f : Unit → M β) (post : State → Prop)
    (h : Returns (f ()) (HasSession jid) post) :
    Returns (M.update jid u >>= f) (HasSession jid) post := by
  intro s hs
  obtain ⟨c, hc⟩ := Option.isSome_iff_exists.mp hs
  have hrun : M.update jid u s = Res.ok ()
      { s with WhatsAppClient := Function.update s.WhatsAppClient jid (some (u c)) } := by
    simp [M.update, hc]
  have hs1 : HasSession jid
      { s with WhatsAppClient := Function.update s.WhatsAppClient jid (some (u c)) } := by
    simp [HasSession]
  obtain ⟨a, s1, h1, h2⟩ := h _ hs1
  exact ⟨a, s1, by simp [M.bind_apply, hrun, h1], h2⟩

theorem returns_of_update (jid : GoString) (u : whatsmeow.Client → whatsmeow.Client) :
    Returns (M.update jid u) (HasSession jid) (HasSession jid) := by
  intro s hs
  obtain ⟨c, hc⟩ := Option.isSome_iff_exists.mp hs
  have hrun : M.update jid u s = Res.ok ()
      { s with WhatsAppClient := Function.update s.WhatsAppClient jid (some (u c)) } := by
    simp [M.update, hc]
  exact ⟨(), _, hrun, by simp [HasSession]⟩

/-- On a key that has no session `WhatsAppInitClient` returns, and the
key has a session afterwards. -/
theorem WhatsAppInitClient_fresh (w : World) (device : Option store.Device) (jid : GoString)
    (s : State) (hn : s.WhatsAppClient jid = none) :
    ∃ s1, WhatsAppInitClient w device jid s = Res.ok () s1 ∧ HasSession jid s1 := by
  have key : Returns (WhatsAppInitClient w device jid) (fun s => s.WhatsAppClient jid = none)
      (HasSession jid) := by
    intro s hs
    have inner : ∀ x : M Unit, Returns x (fun _ => True) (HasSession jid) →
        ∃ a s1, x s = Res.ok a s1 ∧ HasSession jid s1 := fun x hx => hx s trivial
    simp only [WhatsAppInitClient, M.bind_apply, M.client, hs, Option.isNone_none, if_true,
      whatsmeow.NewDevice]
    apply inner
    cases device
    all_goals
      repeat' first
        | with_reducible apply returns_of_pure_bind
        | with_reducible apply returns_of_update
        | (with_reducible apply returns_of_update_bind)
        | (with_reducible apply returns_of_assign_bind)
        | (with_reducible apply returns_of_modify_bind; intro _ _; trivial)
        | (with_reducible apply returns_of_perform_bind; intro _ _ _; trivial; intro _)
        | split
  obtain ⟨a, s1, h1, h2⟩ := key s hn
  exact ⟨s1, h1, h2⟩

/-- C9: `WhatsAppInitClient` is idempotent on the registry.  When the key
already has a session, the call returns with the state unchanged, for
every device argument: the entry of the key, every other entry, the
device metadata and the trace are the same, so no new device record is
requested.  Hence, from any state, a second call (with any device
argument) after a first one returns with the state the first one left. -/
theorem WhatsAppInitClient_idempotent (w : World) (device : Option store.Device)
    (jid : GoString) (s : State) :
    ((s.WhatsAppClient jid).isSome = true →
      WhatsAppInitClient w device jid s = Res.ok () s ∧
      (callsOf (WhatsAppInitClient w device jid) s).any Call.isNewDevice = false) ∧
    (∀ device2 : Option store.Device, ∃ s1,
      WhatsAppInitClient w device jid s = Res.ok () s1 ∧
      WhatsAppInitClient w device2 jid s1 = Res.ok () s1) := by
  have noop : ∀ (d : Option store.Device) (t : State), (t.WhatsAppClient jid).isSome = true →
      WhatsAppInitClient w d jid t = Res.ok () t := by
    intro d t ht
    obtain ⟨c, hc⟩ := Option.isSome_iff_exists.mp ht
    simp [WhatsAppInitClient, M.bind_apply, M.pure_apply, M.client, hc]
  refine ⟨?_, ?_⟩
  · intro hc
    refine ⟨noop device s hc, ?_⟩
    simp [callsOf, noop device s hc, Res.state]
  · intro device2
    cases hn : s.WhatsAppClient jid with
    | some c =>
      have hc : (s.WhatsAppClient jid).isSome = true := by simp [hn]
      exact ⟨s, noop device s hc, noop device2 s hc⟩
    | none =>
      obtain ⟨s1, h1, h2⟩ := WhatsAppInitClient_fresh w device jid s hn
      exact ⟨s1, h1, noop device2 s1 h2⟩

/-- C9 at a concrete state: the key has a session; initialising it again
without a device changes nothing and asks the datastore for nothing. -/
theorem WhatsAppInitClient_idempotent_example :
    ((exampleState pairedClient).WhatsAppClient exampleKey).isSome = true ∧
    WhatsAppInitClient exampleWorld none exampleKey (exampleState pairedClient) =
      Res.ok () (exampleState pairedClient) ∧
    (callsOf (WhatsAppInitClient exampleWorld none exampleKey)
      (exampleState pairedClient)).any Call.isNewDevice = false :=
  ⟨by decide, (WhatsAppInitClient_idempotent exampleWorld none exampleKey
    (exampleState pairedClient)).1 (by decide)⟩

/-! ## Claims on the link message -/

theorem strings.asciiSpace_lt (c : UInt8) (h : strings.asciiSpace c = true) : ¬ c ≥ 128 := by
  simp only [strings.asciiSpace, Bool.or_eq_true, beq_iff_eq] at h
  rcases h with ((((h | h) | h) | h) | h) | h <;> subst h <;> decide

theorem strings.TrimSpace_of_asciiSpace (w : World) (s : GoString)
    (h : s.all strings.asciiSpace = true) : strings.TrimSpace w s = [] := by
  induction s with
  | nil => rfl
  | cons c cs ih =>
    simp only [List.all_cons, Bool.and_eq_true] at h
    simp only [strings.TrimSpace, strings.asciiSpace_lt c h.1, h.1, if_true, if_false]
    exact ih h.2

/-- The steps of the link send dispatch the payload `linkMessage`. -/
theorem sendBody_link_safe (w : World) (jid linkCaption linkURL : GoString) (rj : types.JID) :
    Safe (sendBody w jid (.Link linkCaption linkURL) rj)
      (fun _ mid => ∀ c ∈ mid, c.isSendMessage = true → ∃ chat id e, c =
        Call.SendMessage jid chat
          (.ExtendedTextMessage (linkMessage w linkCaption linkURL)) id e) := by
  simp only [sendBody, whatsmeow.GenerateMessageID, whatsmeow.Client.SendMessage]
  repeat' first
    | with_reducible apply safe_of_pure
    | with_reducible apply safe_of_pure_bind
    | (with_reducible apply safe_of_perform_bind; intro _)
    | split
  all_goals simp [Call.isSendMessage]

/-- C10, counterexample: the caption `" "` (one blank) is supplied, it is
not the empty string, yet the display caption is "Open Link", not the
caption, and the body is the URL alone: the link send dispatches exactly
that message. -/
theorem WhatsAppSendLink_blank_caption :
    str " " ≠ str "" ∧
    (linkMessage exampleWorld (str " ") (str "https://example.org")).MatchedText =
      str "Open Link" ∧
    (linkMessage exampleWorld (str " ") (str "https://example.org")).Text =
      str "https://example.org" ∧
    callsOf (WhatsAppSendLink exampleWorld exampleKey (str "628123456789") (str " ")
        (str "https://example.org")) (exampleState pairedClient) =
      [Call.IsConnected exampleKey true, Call.IsLoggedIn exampleKey true,
       Call.IsOnWhatsApp exampleKey [str "+628123456789@s.whatsapp.net"] none,
       composingCall exampleKey (types.NewJID (str "628123456789") (str "s.whatsapp.net"))
         false none,
       Call.GenerateMessageID (str "3EB0C767D097B7C7C3F4"),
       Call.SendMessage exampleKey
         (types.NewJID (str "628123456789") (str "s.whatsapp.net"))
         (.ExtendedTextMessage
           { Text := str "https://example.org"
             MatchedText := str "Open Link"
             CanonicalUrl := str "https://example.org"
             ContextInfo_ActionLink :=
               { Url := str "https://example.org", ButtonTitle := str "Open Link" } })
         (str "3EB0C767D097B7C7C3F4") none,
       pausedCall exampleKey (types.NewJID (str "628123456789") (str "s.whatsapp.net"))
         false none] := by
  decide

/-- C10, amended: every message `WhatsAppSendLink` dispatches is the
extended-text message `linkMessage`, for which: when the caption trimmed
of white space (`strings.TrimSpace`) is empty, which includes the empty
caption and every caption of ASCII white space only, the display caption
is the literal "Open Link" and the body is the URL alone; when the
trimmed caption is not empty, the display caption is the caption as
passed and the body is caption, newline, URL; in both cases the canonical
URL and the action-link URL are the URL and the button title is the
display caption. -/
theorem WhatsAppSendLink_message (w : World) (jid rjid linkCaption linkURL : GoString)
    (s : State) :
    (∀ c ∈ callsOf (WhatsAppSendLink w jid rjid linkCaption linkURL) s,
      c.isSendMessage = true → ∃ chat id e, c = Call.SendMessage jid chat
        (.ExtendedTextMessage (linkMessage w linkCaption linkURL)) id e) ∧
    ((strings.TrimSpace w linkCaption).length = 0 →
      (linkMessage w linkCaption linkURL).MatchedText = str "Open Link" ∧
      (linkMessage w linkCaption linkURL).Text = linkURL) ∧
    ((strings.TrimSpace w linkCaption).length > 0 →
      (linkMessage w linkCaption linkURL).MatchedText = linkCaption ∧
      (linkMessage w linkCaption linkURL).Text = linkCaption ++ str "\n" ++ linkURL) ∧
    (linkMessage w linkCaption linkURL).CanonicalUrl = linkURL ∧
    (linkMessage w linkCaption linkURL).ContextInfo_ActionLink.Url = linkURL ∧
    (linkMessage w linkCaption linkURL).ContextInfo_ActionLink.ButtonTitle =
      (linkMessage w linkCaption linkURL).MatchedText ∧
    (linkCaption.all strings.asciiSpace = true →
      (strings.TrimSpace w linkCaption).length = 0) := by
  refine ⟨?_, ?_, ?_, rfl, rfl, rfl, ?_⟩
  · have hframe : WhatsAppSendLink w jid rjid linkCaption linkURL =
        sendFrame w jid rjid false (sendBody w jid (.Link linkCaption linkURL)) := rfl
    rw [hframe]
    rcases sendFrame_cases w jid rjid false (sendBody w jid (.Link linkCaption linkURL)) _
      (sendBody_link_safe w jid linkCaption linkURL) s with
      ⟨l, h1, h2⟩ | ⟨res, s1, pre, rj, mid, e1, e2, h1, h2, h3, hP⟩
    · rw [callsOf_eq (sendFrame w jid rjid false (sendBody w jid (.Link linkCaption linkURL)))
        s _ l rfl h1]
      intro c hc hs
      have := (all_isQuery_quiet l h2 c hc).2.2.2.1
      simp [this] at hs
    · rw [callsOf_eq (sendFrame w jid rjid false (sendBody w jid (.Link linkCaption linkURL)))
        s s1 _ (by rw [h1]; rfl) h2]
      intro c hc hs
      simp only [List.mem_append, List.mem_cons, List.mem_singleton, List.not_mem_nil,
        or_false] at hc
      rcases hc with hc | hc | hc | hc
      · have := (all_isQuery_quiet pre h3 c hc).2.2.2.1
        simp [this] at hs
      · subst hc
        simp [Call.isSendMessage] at hs
      · exact hP c hc hs
      · subst hc
        simp [Call.isSendMessage] at hs
  · intro h
    simp [linkMessage, h]
  · intro h
    have h0 : ¬ (strings.TrimSpace w linkCaption).length = 0 := by omega
    have h1 : ¬ strings.TrimSpace w linkCaption = [] := by
      intro hx
      exact h0 (by simp [hx])
    simp [linkMessage, h1]
  · intro h
    simp [strings.TrimSpace_of_asciiSpace w linkCaption h]

/-- C10, amended, at concrete captions: the caption "Read more" is kept
and precedes the URL in the body; a caption of two blanks is replaced by
"Open Link". -/
theorem WhatsAppSendLink_message_examples :
    ((linkMessage exampleWorld (str "Read more") (str "https://example.org")).MatchedText =
        str "Read more" ∧
      (linkMessage exampleWorld (str "Read more") (str "https://example.org")).Text =
        str "Read more" ++ str "\n" ++ str "https://example.org") ∧
    ((linkMessage exampleWorld (str "  ") (str "https://example.org")).MatchedText =
        str "Open Link" ∧
      (linkMessage exampleWorld (str "  ") (str "https://example.org")).Text =
        str "https://example.org") :=
  ⟨(WhatsAppSendLink_message exampleWorld exampleKey (str "628123456789") (str "Read more")
      (str "https://example.org") (exampleState pairedClient)).2.2.1 (by decide),
   (WhatsAppSendLink_message exampleWorld exampleKey (str "628123456789") (str "  ")
      (str "https://example.org") (exampleState pairedClient)).2.1 (by decide)⟩

/-! ## Claims on the session check -/

theorem WhatsAppIsClientOK_not_connected (w : World) (jid : GoString) (s : State)
    (hc : (s.WhatsAppClient jid).isSome = true) (h1 : w.IsConnected s.trace jid = false) :
    WhatsAppIsClientOK w jid s =
      Res.ok (some (errors.New "WhatsApp Client is not Connected"))
        (s.extend [Call.IsConnected jid false]) := by
  obtain ⟨cl, hn⟩ := Option.isSome_iff_exists.mp hc
  simp [WhatsAppIsClientOK, M.bind_apply, M.pure_apply, M.client, hn,
    whatsmeow.Client.IsConnected, whatsmeow.Client.IsLoggedIn, M.perform_apply, h1,
    State.extend]

theorem WhatsAppIsClientOK_not_logged_in (w : World) (jid : GoString) (s : State)
    (hc : (s.WhatsAppClient jid).isSome = true) (h1 : w.IsConnected s.trace jid = true)
    (h2 : w.IsLoggedIn (s.trace ++ [Call.IsConnected jid true]) jid = false) :
    WhatsAppIsClientOK w jid s =
      Res.ok (some (errors.New "WhatsApp Client is not Logged In"))
        (s.extend [Call.IsConnected jid true, Call.IsLoggedIn jid false]) := by
  obtain ⟨cl, hn⟩ := Option.isSome_iff_exists.mp hc
  simp [WhatsAppIsClientOK, M.bind_apply, M.pure_apply, M.client, hn,
    whatsmeow.Client.IsConnected, whatsmeow.Client.IsLoggedIn, M.perform_apply, h1, h2,
    State.extend]

theorem WhatsAppIsClientOK_passes (w : World) (jid : GoString) (s : State)
    (hc : (s.WhatsAppClient jid).isSome = true) (h1 : w.IsConnected s.trace jid = true)
    (h2 : w.IsLoggedIn (s.trace ++ [Call.IsConnected jid true]) jid = true) :
    WhatsAppIsClientOK w jid s =
      Res.ok none (s.extend [Call.IsConnected jid true, Call.IsLoggedIn jid true]) := by
  obtain ⟨cl, hn⟩ := Option.isSome_iff_exists.mp hc
  simp [WhatsAppIsClientOK, M.bind_apply, M.pure_apply, M.client, hn,
    whatsmeow.Client.IsConnected, whatsmeow.Client.IsLoggedIn, M.perform_apply, h1, h2,
    State.extend]

/-- A send or a group listing stopped by the session check returns the
error of the check in the state the check left. -/
theorem session_check_stops (w : World) (req : SendRequest) (jid rjid : GoString)
    (s s1 : State) (e : GoError) (hc : (s.WhatsAppClient jid).isSome = true)
    (hok : WhatsAppIsClientOK w jid s = Res.ok (some e) s1) :
    WhatsAppSend w jid rjid req s = Res.ok ([], some e) s1 ∧
    WhatsAppGetGroup w jid s = Res.ok ([], some e) s1 := by
  obtain ⟨cl, hn⟩ := Option.isSome_iff_exists.mp hc
  refine ⟨?_, ?_⟩
  · rw [WhatsAppSend_eq_frame]
    exact (sendFrame_check_rejects w jid rjid req.isAudio (sendBody w jid req) s s1 e hc hok).1
  · simp [WhatsAppGetGroup, M.bind_apply, M.pure_apply, M.client, hn, hok]

/-- C11: for every send operation and for `WhatsAppGetGroup` on an
existing session.  If the session is not connected, the operation returns
the error "WhatsApp Client is not Connected" with an empty result,
whatever the login state (it is not queried), and its only call is the
`IsConnected` query.  If the session is connected but not logged in, it
returns "WhatsApp Client is not Logged In" and its only calls are the two
status queries.  So on either failure there is no registration check, no
presence, upload or dispatch call.  `WhatsAppIsClientOK` returns no error
if and only if the session is connected and logged in. -/
theorem session_check_gate (w : World) (req : SendRequest) (jid rjid : GoString) (s : State)
    (hc : (s.WhatsAppClient jid).isSome = true) :
    (w.IsConnected s.trace jid = false →
      WhatsAppSend w jid rjid req s =
        Res.ok ([], some (errors.New "WhatsApp Client is not Connected"))
          (s.extend [Call.IsConnected jid false]) ∧
      WhatsAppGetGroup w jid s =
        Res.ok ([], some (errors.New "WhatsApp Client is not Connected"))
          (s.extend [Call.IsConnected jid false]) ∧
      callsOf (WhatsAppSend w jid rjid req) s = [Call.IsConnected jid false] ∧
      callsOf (WhatsAppGetGroup w jid) s = [Call.IsConnected jid false]) ∧
    (w.IsConnected s.trace jid = true →
      w.IsLoggedIn (s.trace ++ [Call.IsConnected jid true]) jid = false →
      WhatsAppSend w jid rjid req s =
        Res.ok ([], some (errors.New "WhatsApp Client is not Logged In"))
          (s.extend [Call.IsConnected jid true, Call.IsLoggedIn jid false]) ∧
      WhatsAppGetGroup w jid s =
        Res.ok ([], some (errors.New "WhatsApp Client is not Logged In"))
          (s.extend [Call.IsConnected jid true, Call.IsLoggedIn jid false]) ∧
      callsOf (WhatsAppSend w jid rjid req) s =
        [Call.IsConnected jid true, Call.IsLoggedIn jid false] ∧
      callsOf (WhatsAppGetGroup w jid) s =
        [Call.IsConnected jid true, Call.IsLoggedIn jid false]) ∧
    ((WhatsAppIsClientOK w jid s).value = some none ↔
      (w.IsConnected s.trace jid = true ∧
        w.IsLoggedIn (s.trace ++ [Call.IsConnected jid true]) jid = true)) := by
  refine ⟨?_, ?_, ?_⟩
  · intro h1
    have hok := WhatsAppIsClientOK_not_connected w jid s hc h1
    obtain ⟨hs, hg⟩ := session_check_stops w req jid rjid s _ _ hc hok
    exact ⟨hs, hg, by simp [callsOf, hs, Res.state, State.extend],
      by simp [callsOf, hg, Res.state, State.extend]⟩
  · intro h1 h2
    have hok := WhatsAppIsClientOK_not_logged_in w jid s hc h1 h2
    obtain ⟨hs, hg⟩ := session_check_stops w req jid rjid s _ _ hc hok
    exact ⟨hs, hg, by simp [callsOf, hs, Res.state, State.extend],
      by simp [callsOf, hg, Res.state, State.extend]⟩
  · by_cases h1 : w.IsConnected s.trace jid = true
    · by_cases h2 : w.IsLoggedIn (s.trace ++ [Call.IsConnected jid true]) jid = true
      · simp [WhatsAppIsClientOK_passes w jid s hc h1 h2, Res.value, h1, h2]
      · simp only [Bool.not_eq_true] at h2
        simp [WhatsAppIsClientOK_not_logged_in w jid s hc h1 h2, Res.value, h1, h2]
    · simp only [Bool.not_eq_true] at h1
      simp [WhatsAppIsClientOK_not_connected w jid s hc h1, Res.value, h1]

/-- C11 at concrete runs: a sticker send on a session that is not
connected makes the `IsConnected` query only; a group listing on a
session that is connected but not logged in makes the two status queries
only. -/
theorem session_check_gate_examples :
    ((exampleState pairedClient).WhatsAppClient exampleKey).isSome = true ∧
    callsOf (WhatsAppSend disconnectedWorld exampleKey (str "628123456789")
        (.Sticker [82, 73, 70, 70])) (exampleState pairedClient) =
      [Call.IsConnected exampleKey false] ∧
    callsOf (WhatsAppGetGroup loggedOutWorld exampleKey) (exampleState pairedClient) =
      [Call.IsConnected exampleKey true, Call.IsLoggedIn exampleKey false] :=
  ⟨by decide,
   ((session_check_gate disconnectedWorld (.Sticker [82, 73, 70, 70]) exampleKey
      (str "628123456789") (exampleState pairedClient) (by decide)).1 (by decide)).2.2.1,
   ((session_check_gate loggedOutWorld (.Sticker [82, 73, 70, 70]) exampleKey
      (str "628123456789") (exampleState pairedClient) (by decide)).2.1 (by decide)
      (by decide)).2.2.2⟩

/-! ## Claims on the login flow -/

/-- C12: `WhatsAppLogin`.  Without a session for the key it returns the
error "WhatsApp Client is not Valid" with an empty image and timeout zero
and makes no call.  With a session that has a durable device identity it
first disconnects and then runs `WhatsAppReconnect`: when the reconnect
returns no error the result is ("WhatsApp Client is Reconnected", 0, no
error), when it returns an error the result is ("", 0, that error); the
pairing-event feed is never opened (`GetQRChannel` is not called). -/
theorem WhatsAppLogin_run (w : World) (jid : GoString) (s : State) :
    (s.WhatsAppClient jid = none →
      WhatsAppLogin w jid s =
        Res.ok (some ([], 0, some (errors.New "WhatsApp Client is not Valid"))) s ∧
      callsOf (WhatsAppLogin w jid) s = []) ∧
    (∀ (client : whatsmeow.Client) (id : types.JID),
      s.WhatsAppClient jid = some client → client.Store.ID = some id →
      ∃ r s1, WhatsAppReconnect w jid (s.extend [Call.Disconnect jid]) = Res.ok r s1 ∧
        (r = none → WhatsAppLogin w jid s =
          Res.ok (some (str "WhatsApp Client is Reconnected", 0, none)) s1) ∧
        (∀ e, r = some e → WhatsAppLogin w jid s = Res.ok (some ([], 0, some e)) s1) ∧
        (callsOf (WhatsAppLogin w jid) s).head? = some (Call.Disconnect jid) ∧
        (callsOf (WhatsAppLogin w jid) s).any Call.isGetQRChannel = false) := by
  refine ⟨?_, ?_⟩
  · intro hn
    constructor <;>
    simp [callsOf, WhatsAppLogin, M.bind_apply, M.pure_apply, M.client, hn, Res.state]
  · intro client id hn hid
    refine ⟨w.Connect (s.trace ++ [Call.Disconnect jid, Call.Disconnect jid]) jid,
      (WhatsAppReconnect w jid (s.extend [Call.Disconnect jid])).state, ?_, ?_, ?_, ?_, ?_⟩
    all_goals
      cases hconn : w.Connect (s.trace ++ [Call.Disconnect jid, Call.Disconnect jid]) jid <;>
      simp [callsOf, WhatsAppLogin, WhatsAppReconnect, M.bind_apply, M.pure_apply, M.client,
        hn, hid, whatsmeow.Client.Disconnect, whatsmeow.Client.Connect,
        whatsmeow.Client.SendPresence, M.perform_apply, hconn, Res.state, State.extend,
        Call.isGetQRChannel]

/-- C12 at concrete runs: a key without session; a paired session whose
reconnect succeeds; a paired session whose `Connect` is refused. -/
theorem WhatsAppLogin_run_examples :
    ((exampleState pairedClient).WhatsAppClient (str "tenant-b") = none ∧
      WhatsAppLogin exampleWorld (str "tenant-b") (exampleState pairedClient) =
        Res.ok (some ([], 0, some (errors.New "WhatsApp Client is not Valid")))
          (exampleState pairedClient)) ∧
    callsOf (WhatsAppLogin exampleWorld exampleKey) (exampleState pairedClient) =
      [Call.Disconnect exampleKey, Call.Disconnect exampleKey, Call.Connect exampleKey none,
       Call.SendPresence exampleKey .PresenceAvailable none] ∧
    ∃ r s1, WhatsAppReconnect connectRefusedWorld exampleKey
        ((exampleState pairedClient).extend [Call.Disconnect exampleKey]) = Res.ok r s1 ∧
      (r = none → WhatsAppLogin connectRefusedWorld exampleKey (exampleState pairedClient) =
        Res.ok (some (str "WhatsApp Client is Reconnected", 0, none)) s1) ∧
      (∀ e, r = some e →
        WhatsAppLogin connectRefusedWorld exampleKey (exampleState pairedClient) =
          Res.ok (some ([], 0, some e)) s1) ∧
      (callsOf (WhatsAppLogin connectRefusedWorld exampleKey)
        (exampleState pairedClient)).head? = some (Call.Disconnect exampleKey) ∧
      (callsOf (WhatsAppLogin connectRefusedWorld exampleKey)
        (exampleState pairedClient)).any Call.isGetQRChannel = false :=
  ⟨⟨by decide, ((WhatsAppLogin_run exampleWorld (str "tenant-b")
      (exampleState pairedClient)).1 (by decide)).1⟩,
   by decide,
   (WhatsAppLogin_run connectRefusedWorld exampleKey (exampleState pairedClient)).2
     pairedClient exampleJID (by decide) (by decide)⟩

/-! ## Claims on the platform type -/

/-- C14, the code at the failing input: the tag `android-tablet`, in any
letter case, falls through to the fallback type `UNKNOWN`; the tag the
switch compares with is the misspelt `andorid-tablet`. -/
theorem WhatsAppGetUserAgent_android_tablet (w : World) :
    WhatsAppGetUserAgent w (str "android-tablet") = .DeviceProps_UNKNOWN ∧
    WhatsAppGetUserAgent w (str "Android-Tablet") = .DeviceProps_UNKNOWN ∧
    WhatsAppGetUserAgent w (str "andorid-tablet") = .DeviceProps_ANDROID_TABLET := by
  refine ⟨?_, ?_, ?_⟩ <;> rfl

/-- The other fifteen tags map to their platform type, whatever the
letter case of an ASCII tag. -/
theorem WhatsAppGetUserAgent_known_tags (w : World) :
    WhatsAppGetUserAgent w (str "desktop") = .DeviceProps_DESKTOP ∧
    WhatsAppGetUserAgent w (str "mac") = .DeviceProps_CATALINA ∧
    WhatsAppGetUserAgent w (str "MAC") = .DeviceProps_CATALINA ∧
    WhatsAppGetUserAgent w (str "android") = .DeviceProps_ANDROID_AMBIGUOUS ∧
    WhatsAppGetUserAgent w (str "android-phone") = .DeviceProps_ANDROID_PHONE ∧
    WhatsAppGetUserAgent w (str "ios-phone") = .DeviceProps_IOS_PHONE ∧
    WhatsAppGetUserAgent w (str "ios-catalyst") = .DeviceProps_IOS_CATALYST ∧
    WhatsAppGetUserAgent w (str "ipad") = .DeviceProps_IPAD ∧
    WhatsAppGetUserAgent w (str "wearos") = .DeviceProps_WEAR_OS ∧
    WhatsAppGetUserAgent w (str "ie") = .DeviceProps_IE ∧
    WhatsAppGetUserAgent w (str "edge") = .DeviceProps_EDGE ∧
    WhatsAppGetUserAgent w (str "Chrome") = .DeviceProps_CHROME ∧
    WhatsAppGetUserAgent w (str "firefox") = .DeviceProps_FIREFOX ∧
    WhatsAppGetUserAgent w (str "opera") = .DeviceProps_OPERA ∧
    WhatsAppGetUserAgent w (str "aloha") = .DeviceProps_ALOHA ∧
    WhatsAppGetUserAgent w (str "TV-TCL") = .DeviceProps_TCL_TV := by
  refine ⟨?_, ?_, ?_, ?_, ?_, ?_, ?_, ?_, ?_, ?_, ?_, ?_, ?_, ?_, ?_, ?_⟩ <;> rfl

/-! ## Claims on the fault of the decomposition -/

/-- C15: `WhatsAppDecomposeJID`, and with it `WhatsAppComposeJID`, returns
(no index-out-of-range fault at `id[0]`) if and only if the part of the
id before its first `@` is non-empty; for the empty string and for every
id that begins with `@` it faults; and a send operation whose session
check has passed faults at that point, before any further call, when the
recipient id has an empty part before its first `@`. -/
theorem WhatsAppDecomposeJID_returns_iff (id : GoString) :
    ((WhatsAppDecomposeJID id).isSome = true ↔ beforeAt id ≠ []) ∧
    ((WhatsAppComposeJID id).isSome = true ↔ beforeAt id ≠ []) ∧
    WhatsAppDecomposeJID [] = none ∧
    (∀ rest : GoString, WhatsAppDecomposeJID (64 :: rest) = none) ∧
    (∀ (w : World) (req : SendRequest) (jid : GoString) (s s1 : State),
      WhatsAppIsClientOK w jid s = Res.ok none s1 → beforeAt id = [] →
      WhatsAppSend w jid id req s = Res.panic s1) := by
  have hdec : (WhatsAppDecomposeJID id).isSome = true ↔ beforeAt id ≠ [] := by
    rw [WhatsAppDecomposeJID_eq]
    cases hb : beforeAt id with
    | nil => simp
    | cons c rest => by_cases hc : (c == 43) = true <;> simp [hc]
  refine ⟨hdec, ?_, rfl, ?_, ?_⟩
  · rw [← hdec]
    unfold WhatsAppComposeJID
    cases hd : WhatsAppDecomposeJID id with
    | none => simp
    | some d => by_cases hg : (strings.ContainsRune d 45 || decide (d.length ≥ 18)) = true <;>
        simp [hg]
  · intro rest
    rw [WhatsAppDecomposeJID_eq]
    simp [beforeAt]
  · intro w req jid s s1 hok hb
    have hc := WhatsAppIsClientOK_needs_client w jid s s1 none hok
    have hnone : WhatsAppComposeJID id = none := by
      have : WhatsAppDecomposeJID id = none := by
        rw [WhatsAppDecomposeJID_eq, hb]
      simp [WhatsAppComposeJID, this]
    rw [WhatsAppSend_eq_frame]
    simp [sendFrame, M.bind_apply, M.pure_apply, M.client, hc, hok, hnone, M.ofOption, M.fault]

/-- C15 at concrete ids and a concrete run: `628123456789@s.whatsapp.net`
decomposes, `@s.whatsapp.net` does not, and a text send to the empty id
on a connected, logged-in session faults after the two status queries. -/
theorem WhatsAppDecomposeJID_returns_iff_examples :
    (WhatsAppDecomposeJID (str "628123456789@s.whatsapp.net")).isSome = true ∧
    WhatsAppDecomposeJID (str "@s.whatsapp.net") = none ∧
    WhatsAppSend exampleWorld exampleKey (str "") (.Text (str "hello"))
        (exampleState pairedClient) =
      Res.panic ((exampleState pairedClient).extend
        [Call.IsConnected exampleKey true, Call.IsLoggedIn exampleKey true]) :=
  ⟨(WhatsAppDecomposeJID_returns_iff (str "628123456789@s.whatsapp.net")).1.mpr (by decide),
   (WhatsAppDecomposeJID_returns_iff (str "x")).2.2.2.1 (str "s.whatsapp.net"),
   (WhatsAppDecomposeJID_returns_iff (str "")).2.2.2.2 exampleWorld (.Text (str "hello"))
     exampleKey (exampleState pairedClient) _ rfl (by decide)⟩

/-! ## Claims on the image resize -/

